import Mathlib

/-!
Verification development for the SchemaFlow governance service
(Rust sources under `src/`).  The Rust code is shallowly embedded:
pure functions become Lean functions over the same data, stateful
stores become explicit state passing, machine integers become `Nat`
with explicit `% 2 ^ w` where overflow matters, and fallible code
returns `Except`.  Rust `f64` scores appear only as `Rat` (the claims
never depend on floating-point rounding), UUIDs as `Nat`, and
timestamps are omitted (no claim reads them).
-/

namespace SchemaFlow

/-! ### Bytes and UTF-8

Rust hashes `str::as_bytes()`, i.e. the UTF-8 encoding.  `utf8Encode`
is the standard UTF-8 encoding of a Unicode scalar value, so
`strBytes s` equals the byte sequence Rust feeds to the hasher. -/

def utf8Encode (c : Nat) : List Nat :=
  if c < 0x80 then [c]
  else if c < 0x800 then [0xC0 + c / 64, 0x80 + c % 64]
  else if c < 0x10000 then
    [0xE0 + c / 4096, 0x80 + (c / 64) % 64, 0x80 + c % 64]
  else
    [0xF0 + c / 262144, 0x80 + (c / 4096) % 64, 0x80 + (c / 64) % 64, 0x80 + c % 64]

def strBytes (s : String) : List Nat :=
  s.data.flatMap (fun c => utf8Encode c.toNat)

/-! ### SHA-256

Executable SHA-256 over byte lists, used by both checksum routines in
the source (`sha2::Sha256`).  Words are `Nat` values kept below
`2 ^ 32` by explicit reduction. -/

def w32 : Nat := 4294967296

def rotr32 (n x : Nat) : Nat :=
  (x / 2 ^ n + (x % 2 ^ n) * 2 ^ (32 - n)) % w32

def shaK : Array Nat := #[
  1116352408, 1899447441, 3049323471, 3921009573, 961987163, 1508970993,
  2453635748, 2870763221, 3624381080, 310598401, 607225278, 1426881987,
  1925078388, 2162078206, 2614888103, 3248222580, 3835390401, 4022224774,
  264347078, 604807628, 770255983, 1249150122, 1555081692, 1996064986,
  2554220882, 2821834349, 2952996808, 3210313671, 3336571891, 3584528711,
  113926993, 338241895, 666307205, 773529912, 1294757372, 1396182291,
  1695183700, 1986661051, 2177026350, 2456956037, 2730485921, 2820302411,
  3259730800, 3345764771, 3516065817, 3600352804, 4094571909, 275423344,
  430227734, 506948616, 659060556, 883997877, 958139571, 1322822218,
  1537002063, 1747873779, 1955562222, 2024104815, 2227730452, 2361852424,
  2428436474, 2756734187, 3204031479, 3329325298]

def shaH0 : List Nat :=
  [1779033703, 3144134277, 1013904242, 2773480762,
   1359893119, 2600822924, 528734635, 1541459225]

/-- Standard SHA-256 padding: append 0x80, zero bytes, then the
64-bit big-endian bit length. -/
def shaPad (msg : List Nat) : List Nat :=
  let len := msg.length
  let zeros := (56 + 64 - (len + 1) % 64) % 64
  let bitLen := (len * 8) % 2 ^ 64
  msg ++ [0x80] ++ List.replicate zeros 0 ++
    (List.range 8).map (fun i => bitLen / 2 ^ (8 * (7 - i)) % 256)

def bytesToWords : List Nat → List Nat
  | b0 :: b1 :: b2 :: b3 :: rest =>
      (((b0 * 256 + b1) * 256 + b2) * 256 + b3) :: bytesToWords rest
  | _ => []

/-- Split a word list into 16-word blocks (the padded message length is
a multiple of 64 bytes, hence of 16 words). -/
def wordsToBlocks : List Nat → List (List Nat)
  | w0 :: w1 :: w2 :: w3 :: w4 :: w5 :: w6 :: w7 ::
    w8 :: w9 :: w10 :: w11 :: w12 :: w13 :: w14 :: w15 :: rest =>
      [w0, w1, w2, w3, w4, w5, w6, w7, w8, w9, w10, w11, w12, w13, w14, w15] ::
        wordsToBlocks rest
  | _ => []

def smallSigma0 (x : Nat) : Nat := (rotr32 7 x) ^^^ (rotr32 18 x) ^^^ (x / 2 ^ 3)

def smallSigma1 (x : Nat) : Nat := (rotr32 17 x) ^^^ (rotr32 19 x) ^^^ (x / 2 ^ 10)

def bigSigma0 (x : Nat) : Nat := (rotr32 2 x) ^^^ (rotr32 13 x) ^^^ (rotr32 22 x)

def bigSigma1 (x : Nat) : Nat := (rotr32 6 x) ^^^ (rotr32 11 x) ^^^ (rotr32 25 x)

/-- Message schedule: extend the 16 block words to 64. -/
def shaSchedule (w0 : Array Nat) : Array Nat :=
  (List.range 48).foldl
    (fun w j =>
      let i := j + 16
      w.push ((w.getD (i - 16) 0 + smallSigma0 (w.getD (i - 15) 0) +
               w.getD (i - 7) 0 + smallSigma1 (w.getD (i - 2) 0)) % w32))
    w0

/-- One round of the SHA-256 compression function. -/
def shaRound (wi ki : Nat)
    (st : Nat × Nat × Nat × Nat × Nat × Nat × Nat × Nat) :
    Nat × Nat × Nat × Nat × Nat × Nat × Nat × Nat :=
  match st with
  | (a, b, c, d, e, f, g, h) =>
    let ch := (e &&& f) ^^^ ((w32 - 1 - e) &&& g)
    let temp1 := (h + bigSigma1 e + ch + ki + wi) % w32
    let temp2 := (bigSigma0 a + ((a &&& b) ^^^ (a &&& c) ^^^ (b &&& c))) % w32
    ((temp1 + temp2) % w32, a, b, c, (d + temp1) % w32, e, f, g)

def shaCompress (hs : List Nat) (block : List Nat) : List Nat :=
  let w := shaSchedule block.toArray
  match hs with
  | [h0, h1, h2, h3, h4, h5, h6, h7] =>
    let fin := (List.range 64).foldl
      (fun st i => shaRound (w.getD i 0) (shaK.getD i 0) st)
      (h0, h1, h2, h3, h4, h5, h6, h7)
    match fin with
    | (a, b, c, d, e, f, g, h) =>
      [(h0 + a) % w32, (h1 + b) % w32, (h2 + c) % w32, (h3 + d) % w32,
       (h4 + e) % w32, (h5 + f) % w32, (h6 + g) % w32, (h7 + h) % w32]
  | _ => hs

def sha256Words (msg : List Nat) : List Nat :=
  (wordsToBlocks (bytesToWords (shaPad msg))).foldl shaCompress shaH0

def hexDigit (n : Nat) : Char :=
  if n < 10 then Char.ofNat (48 + n) else Char.ofNat (87 + n)

def wordHex (w : Nat) : List Char :=
  (List.range 8).map (fun k => hexDigit (w / 16 ^ (7 - k) % 16))

/-- Lowercase hex digest, matching Rust `format!("\x7b:x\x7d", hasher.finalize())`
which prints each digest byte as two lowercase hex digits. -/
def sha256Hex (msg : List Nat) : String :=
  String.mk ((sha256Words msg).flatMap wordHex)

/-! ### Data model (`src/introspection.rs`)

`PiiLevel`, `Column`, `Table`, `PrimaryKey`, `ForeignKey`, `Index`
mirror the Rust structs.  Presentation metadata (`position`, `color`,
`collapsed`, `governance`) is never read by any function modelled
here and is omitted; `ordinal_position : i32` is modelled as `Int`. -/

inductive PiiLevel
  | none
  | internal
  | confidential
  | restricted
  | secret
deriving DecidableEq, Repr

structure Column where
  name : String
  data_type : String
  nullable : Bool
  default_value : Option String
  is_primary_key : Bool
  is_unique : Bool
  ordinal_position : Int
  pii_classification : Option PiiLevel
  description : Option String
  tags : List String
deriving DecidableEq, Repr

structure PrimaryKey where
  constraint_name : String
  columns : List String
deriving DecidableEq, Repr

structure Table where
  name : String
  schema : String
  columns : List Column
  primary_key : Option PrimaryKey
deriving DecidableEq, Repr

structure ForeignKey where
  constraint_name : String
  source_schema : String
  source_table : String
  source_columns : List String
  referenced_schema : String
  referenced_table : String
  referenced_columns : List String
  on_update : String
  on_delete : String
deriving DecidableEq, Repr

structure Index where
  name : String
  schema : String
  table : String
  columns : List String
  is_unique : Bool
  is_primary : Bool
  index_type : String
deriving DecidableEq, Repr

structure SchemaSnapshot where
  id : Nat
  connection_id : Nat
  version : Nat
  tables : List Table
  foreign_keys : List ForeignKey
  indexes : List Index
  checksum : String
deriving DecidableEq, Repr

/-- Lexicographic comparison on code points; on valid UTF-8 this equals
the byte-wise order Rust's `sort` uses on `String`. -/
def charsLe : List Char → List Char → Bool
  | [], _ => true
  | _ :: _, [] => false
  | a :: as, b :: bs =>
    if a.toNat < b.toNat then true
    else if b.toNat < a.toNat then false
    else charsLe as bs

def strLe (a b : String) : Bool := charsLe a.data b.data

/-- Stable insertion into a sorted list (earlier elements stay before
equal later ones, as Rust's stable `sort`). -/
def insertSorted {α : Type} (le : α → α → Bool) (x : α) : List α → List α
  | [] => [x]
  | y :: ys => if le x y then x :: y :: ys else y :: insertSorted le x ys

/-- Stable sort; extensionally equal to Rust's stable `sort_by` for a
total preorder, and used where the development must evaluate inside the
kernel. -/
def stableSort {α : Type} (le : α → α → Bool) : List α → List α
  | [] => []
  | x :: xs => insertSorted le x (stableSort le xs)

def sortStrings (l : List String) : List String := stableSort strLe l

/-- Checksum of schema content, from `SchemaSnapshot::compute_checksum`:
the hasher is fed (1) the qualified table names in sorted order,
(2) per column `schema.table.column:data_type` in table insertion
order, (3) per foreign key `FK:constraint_name->referenced_table` in
insertion order.  The `indexes` argument is ignored by the source. -/
def computeChecksum (tables : List Table) (foreign_keys : List ForeignKey)
    (_indexes : List Index) : String :=
  let tableStrs := sortStrings (tables.map (fun t => t.schema ++ "." ++ t.name))
  let colStrs := tables.flatMap (fun t =>
    t.columns.map (fun c =>
      t.schema ++ "." ++ t.name ++ "." ++ c.name ++ ":" ++ c.data_type))
  let fkStrs := foreign_keys.map (fun fk =>
    "FK:" ++ fk.constraint_name ++ "->" ++ fk.referenced_table)
  sha256Hex (strBytes (String.join (tableStrs ++ colStrs ++ fkStrs)))

/-! ### Orchestrator pre-flight checksum (`src/pipeline/orchestrator.rs`)

`Orchestrator::compute_current_checksum` runs one SQL query over
`information_schema.columns` only: per table (ordered by schema then
name) it aggregates `schema.table:` followed by
`column:data_type:is_nullable` joined with commas in ordinal order,
and hashes the concatenated rows.  A live database is modelled as the
table list plus the index list; the `information_schema.columns` view
exposes no index data, so `liveTables` is the only input the query
reads. -/

structure LiveSchema where
  tables : List Table
  indexes : List Index

/-- The SQL `ORDER BY table_schema, table_name` comparison. -/
def tableKeyLe (a b : Table) : Bool :=
  if a.schema = b.schema then strLe a.name b.name else strLe a.schema b.schema

def liveColumnRow (t : Table) : String :=
  t.schema ++ "." ++ t.name ++ ":" ++
    String.intercalate ","
      (t.columns.map (fun c =>
        c.name ++ ":" ++ c.data_type ++ ":" ++ (if c.nullable then "YES" else "NO")))

def computeCurrentChecksum (db : LiveSchema) : String :=
  sha256Hex (strBytes (String.join ((stableSort tableKeyLe db.tables).map liveColumnRow)))

/-! ### JSON values (`serde_json::Value`)

Diff items carry `before`/`after` blobs produced by serde with
camelCase field names; `Option` fields marked
`skip_serializing_if = "Option::is_none"` are absent when `None`.
Only the accessors the rules engine uses are modelled. -/

inductive Json
  | null
  | bool (b : Bool)
  | str (s : String)
  | num (n : Int)
  | arr (xs : List Json)
  | obj (fields : List (String × Json))

def Json.get : Json → String → Option Json
  | .obj fields, k => (fields.find? (fun p => p.1 = k)).map Prod.snd
  | _, _ => Option.none

def Json.asBool : Json → Option Bool
  | .bool b => some b
  | _ => Option.none

def Json.asStr : Json → Option String
  | .str s => some s
  | _ => Option.none

def piiLevelJson : PiiLevel → Json
  | .none => .str "none"
  | .internal => .str "internal"
  | .confidential => .str "confidential"
  | .restricted => .str "restricted"
  | .secret => .str "secret"

def columnJson (c : Column) : Json :=
  .obj ([("name", .str c.name), ("dataType", .str c.data_type),
         ("nullable", .bool c.nullable)] ++
    (match c.default_value with
     | some d => [("defaultValue", Json.str d)]
     | Option.none => []) ++
    [("isPrimaryKey", .bool c.is_primary_key), ("isUnique", .bool c.is_unique),
     ("ordinalPosition", .num c.ordinal_position)] ++
    (match c.pii_classification with
     | some p => [("piiClassification", piiLevelJson p)]
     | Option.none => []) ++
    (match c.description with
     | some d => [("description", Json.str d)]
     | Option.none => []) ++
    [("tags", .arr (c.tags.map .str))])

def tableJson (t : Table) : Json :=
  .obj [("name", .str t.name), ("schema", .str t.schema),
        ("columns", .arr (t.columns.map columnJson)),
        ("primaryKey",
          match t.primary_key with
          | some pk => .obj [("constraintName", .str pk.constraint_name),
                             ("columns", .arr (pk.columns.map .str))]
          | Option.none => .null)]

def foreignKeyJson (fk : ForeignKey) : Json :=
  .obj [("constraintName", .str fk.constraint_name),
        ("sourceSchema", .str fk.source_schema),
        ("sourceTable", .str fk.source_table),
        ("sourceColumns", .arr (fk.source_columns.map .str)),
        ("referencedSchema", .str fk.referenced_schema),
        ("referencedTable", .str fk.referenced_table),
        ("referencedColumns", .arr (fk.referenced_columns.map .str)),
        ("onUpdate", .str fk.on_update), ("onDelete", .str fk.on_delete)]

def indexJson (idx : Index) : Json :=
  .obj [("name", .str idx.name), ("schema", .str idx.schema),
        ("table", .str idx.table),
        ("columns", .arr (idx.columns.map .str)),
        ("isUnique", .bool idx.is_unique), ("isPrimary", .bool idx.is_primary),
        ("indexType", .str idx.index_type)]

/-! ### Diff engine (`src/snapshot/diff.rs`)

The Rust code collects objects into `HashMap`s and walks set
differences/intersections, whose iteration order is unspecified; the
model iterates keys in first-occurrence snapshot order (deduplicated),
with `HashMap` lookups resolving duplicate keys to the last insertion
as `collect` does.  Every property proved below is insensitive to the
order of `changes`. -/

inductive ChangeType
  | added
  | removed
  | modified
  | renamed
deriving DecidableEq, Repr

inductive ObjectType
  | table
  | column
  | index
  | foreignKey
  | primaryKey
  | constraint
deriving DecidableEq, Repr

inductive DiffRiskLevel
  | safe
  | low
  | medium
  | high
  | critical
deriving DecidableEq, Repr

def DiffRiskLevel.order : DiffRiskLevel → Nat
  | .safe => 0
  | .low => 1
  | .medium => 2
  | .high => 3
  | .critical => 4

structure SchemaDiffItem where
  change_type : ChangeType
  object_type : ObjectType
  object_path : String
  description : String
  before : Option Json
  after : Option Json
  risk_level : DiffRiskLevel
  is_breaking : Bool

structure DiffSummary where
  tables_added : Nat
  tables_removed : Nat
  tables_modified : Nat
  columns_added : Nat
  columns_removed : Nat
  columns_modified : Nat
  indexes_added : Nat
  indexes_removed : Nat
  fks_added : Nat
  fks_removed : Nat
  total_changes : Nat
deriving DecidableEq, Repr

structure SchemaDiff where
  from_version : Nat
  to_version : Nat
  from_checksum : String
  to_checksum : String
  changes : List SchemaDiffItem
  summary : DiffSummary
  overall_risk : DiffRiskLevel
  has_breaking_changes : Bool

def qualTable (t : Table) : String := t.schema ++ "." ++ t.name

def splitChars (sep : Char) : List Char → List (List Char)
  | [] => [[]]
  | c :: rest =>
    let r := splitChars sep rest
    if c = sep then [] :: r
    else
      match r with
      | [] => [[c]]
      | h :: t => (c :: h) :: t

/-- Splitting on a separator character, as Rust `str::split(char)`. -/
def splitOnChar (s : String) (sep : Char) : List String :=
  (splitChars sep s.data).map String.mk

/-- Rust `Debug` rendering of an `Option<String>` (escapes are not
needed for the identifiers involved). -/
def optDebug : Option String → String
  | Option.none => "None"
  | some s => "Some(\"" ++ s ++ "\")"

def boolStr (b : Bool) : String := if b then "true" else "false"

def charsInfixOf (needle hay : List Char) : Bool :=
  match hay with
  | [] => needle.isEmpty
  | h :: t => needle.isPrefixOf (h :: t) || charsInfixOf needle t

/-- Substring test, as Rust `str::contains(&str)`. -/
def containsSub (hay needle : String) : Bool := charsInfixOf needle.data hay.data

def lowerChar (c : Char) : Char :=
  if 65 ≤ c.toNat ∧ c.toNat ≤ 90 then Char.ofNat (c.toNat + 32) else c

/-- Lowercasing; Rust `to_lowercase` agrees with per-char ASCII
lowercasing on the type names involved. -/
def lowerStr (s : String) : String := String.mk (s.data.map lowerChar)

def safeWidenings : List (String × String) :=
  [("integer", "bigint"), ("smallint", "integer"), ("real", "double precision"),
   ("varchar", "text"), ("char", "varchar")]

/-- From `DiffEngine::is_type_change_breaking`: a type change is safe
when some allow-list pair occurs as a substring of the lowercased
`from` and `to` respectively; everything else is breaking. -/
def isTypeChangeBreaking (frm tgt : String) : Bool :=
  !(safeWidenings.any (fun p =>
    containsSub (lowerStr frm) p.1 && containsSub (lowerStr tgt) p.2))

def assessAddColumnRisk (c : Column) : DiffRiskLevel × Bool :=
  if !c.nullable && c.default_value.isNone then (.high, true) else (.safe, false)

/-- From `DiffEngine::compare_columns`: field-by-field comparison of a
column present in both snapshots, producing at most one `Modified`
item.  Later branches overwrite `risk`/`is_breaking` exactly as the
source does. -/
def compareColumns (tablePath : String) (frm tgt : Column) : Option SchemaDiffItem :=
  let mods0 : List String := []
  let risk0 : DiffRiskLevel := .low
  let breaking0 : Bool := false
  let (mods1, risk1, breaking1) :=
    if frm.data_type ≠ tgt.data_type then
      (mods0 ++ ["type: " ++ frm.data_type ++ " → " ++ tgt.data_type],
       DiffRiskLevel.high, isTypeChangeBreaking frm.data_type tgt.data_type)
    else (mods0, risk0, breaking0)
  let (mods2, risk2, breaking2) :=
    if frm.nullable ≠ tgt.nullable then
      if tgt.nullable then (mods1 ++ ["now nullable"], risk1, breaking1)
      else (mods1 ++ ["now NOT NULL"], DiffRiskLevel.medium, true)
    else (mods1, risk1, breaking1)
  let mods3 :=
    if frm.default_value ≠ tgt.default_value then
      mods2 ++ ["default: " ++ optDebug frm.default_value ++ " → " ++ optDebug tgt.default_value]
    else mods2
  let (mods4, risk4, breaking4) :=
    if frm.is_primary_key ≠ tgt.is_primary_key then
      if tgt.is_primary_key then (mods3 ++ ["added to PRIMARY KEY"], DiffRiskLevel.high, breaking2)
      else (mods3 ++ ["removed from PRIMARY KEY"], DiffRiskLevel.critical, true)
    else (mods3, risk2, breaking2)
  if mods4.isEmpty then Option.none
  else some
    { change_type := .modified
      object_type := .column
      object_path := tablePath ++ "." ++ frm.name
      description := "Column " ++ frm.name ++ " modified: " ++ String.intercalate ", " mods4
      before := some (columnJson frm)
      after := some (columnJson tgt)
      risk_level := risk4
      is_breaking := breaking4 }

/-- First-occurrence deduplicated key list (the model's canonical
iteration order for a Rust hash-set of keys). -/
def dedupKeys (keys : List String) : List String :=
  keys.foldl (fun acc k => if k ∈ acc then acc else acc ++ [k]) []

/-- Lookup with last-insertion-wins semantics, as building a `HashMap`
from an iterator does. -/
def lookupLast {α : Type} (key : α → String) (l : List α) (k : String) : Option α :=
  l.reverse.find? (fun x => key x = k)

def diffColumnsOf (fromTable toTable : Table) : List SchemaDiffItem :=
  let tablePath := qualTable fromTable
  let fromKeys := dedupKeys (fromTable.columns.map (·.name))
  let toKeys := dedupKeys (toTable.columns.map (·.name))
  let added := (toKeys.filter (fun k => !fromKeys.contains k)).filterMap (fun k =>
    (lookupLast Column.name toTable.columns k).map (fun c =>
      let rb := assessAddColumnRisk c
      { change_type := .added
        object_type := .column
        object_path := tablePath ++ "." ++ k
        description := "Column " ++ k ++ " added (type: " ++ c.data_type ++
          ", nullable: " ++ boolStr c.nullable ++ ")"
        before := Option.none
        after := some (columnJson c)
        risk_level := rb.1
        is_breaking := rb.2 }))
  let removed := (fromKeys.filter (fun k => !toKeys.contains k)).filterMap (fun k =>
    (lookupLast Column.name fromTable.columns k).map (fun c =>
      { change_type := .removed
        object_type := .column
        object_path := tablePath ++ "." ++ k
        description := "Column " ++ k ++ " dropped (type: " ++ c.data_type ++ ", data lost)"
        before := some (columnJson c)
        after := Option.none
        risk_level := .high
        is_breaking := true }))
  let modified := (fromKeys.filter toKeys.contains).filterMap (fun k =>
    match lookupLast Column.name fromTable.columns k,
          lookupLast Column.name toTable.columns k with
    | some cf, some ct => compareColumns tablePath cf ct
    | _, _ => Option.none)
  added ++ removed ++ modified

def diffTables (fromTables toTables : List Table) : List SchemaDiffItem :=
  let fromKeys := dedupKeys (fromTables.map qualTable)
  let toKeys := dedupKeys (toTables.map qualTable)
  let added := (toKeys.filter (fun k => !fromKeys.contains k)).filterMap (fun k =>
    (lookupLast qualTable toTables k).map (fun t =>
      { change_type := .added
        object_type := .table
        object_path := k
        description := "Table " ++ k ++ " created with " ++
          toString t.columns.length ++ " columns"
        before := Option.none
        after := some (tableJson t)
        risk_level := .safe
        is_breaking := false }))
  let removed := (fromKeys.filter (fun k => !toKeys.contains k)).filterMap (fun k =>
    (lookupLast qualTable fromTables k).map (fun t =>
      { change_type := .removed
        object_type := .table
        object_path := k
        description := "Table " ++ k ++ " dropped (" ++
          toString t.columns.length ++ " columns, all data lost)"
        before := some (tableJson t)
        after := Option.none
        risk_level := .critical
        is_breaking := true }))
  let modified := (fromKeys.filter toKeys.contains).flatMap (fun k =>
    match lookupLast qualTable fromTables k, lookupLast qualTable toTables k with
    | some tf, some tt => diffColumnsOf tf tt
    | _, _ => [])
  added ++ removed ++ modified

def diffForeignKeys (fromFks toFks : List ForeignKey) : List SchemaDiffItem :=
  let fromKeys := dedupKeys (fromFks.map (·.constraint_name))
  let toKeys := dedupKeys (toFks.map (·.constraint_name))
  let added := (toKeys.filter (fun k => !fromKeys.contains k)).filterMap (fun k =>
    (lookupLast ForeignKey.constraint_name toFks k).map (fun fk =>
      { change_type := .added
        object_type := .foreignKey
        object_path := fk.source_schema ++ "." ++ fk.source_table ++ "." ++ k
        description := "FK " ++ k ++ " added: " ++ fk.source_table ++ "." ++
          String.intercalate "," fk.source_columns ++ " → " ++ fk.referenced_table ++
          "." ++ String.intercalate "," fk.referenced_columns
        before := Option.none
        after := some (foreignKeyJson fk)
        risk_level := .low
        is_breaking := false }))
  let removed := (fromKeys.filter (fun k => !toKeys.contains k)).filterMap (fun k =>
    (lookupLast ForeignKey.constraint_name fromFks k).map (fun fk =>
      { change_type := .removed
        object_type := .foreignKey
        object_path := fk.source_schema ++ "." ++ fk.source_table ++ "." ++ k
        description := "FK " ++ k ++ " dropped (referential integrity removed)"
        before := some (foreignKeyJson fk)
        after := Option.none
        risk_level := .medium
        is_breaking := false }))
  added ++ removed

def diffIndexes (fromIdxs toIdxs : List Index) : List SchemaDiffItem :=
  let fromKeys := dedupKeys (fromIdxs.map (·.name))
  let toKeys := dedupKeys (toIdxs.map (·.name))
  let added := (toKeys.filter (fun k => !fromKeys.contains k)).filterMap (fun k =>
    (lookupLast Index.name toIdxs k).map (fun idx =>
      { change_type := .added
        object_type := .index
        object_path := idx.schema ++ "." ++ k
        description := (if idx.is_unique then "Unique " else "") ++ "Index " ++ k ++
          " added on " ++ idx.schema ++ "." ++ idx.table ++ " (columns: " ++
          String.intercalate ", " idx.columns ++ ")"
        before := Option.none
        after := some (indexJson idx)
        risk_level := .safe
        is_breaking := false }))
  let removed := (fromKeys.filter (fun k => !toKeys.contains k)).filterMap (fun k =>
    (lookupLast Index.name fromIdxs k).map (fun idx =>
      { change_type := .removed
        object_type := .index
        object_path := idx.schema ++ "." ++ k
        description := "Index " ++ k ++ " dropped from " ++ idx.schema ++ "." ++
          idx.table ++ " (may impact query performance)"
        before := some (indexJson idx)
        after := Option.none
        risk_level := if idx.is_unique then .high else .medium
        is_breaking := idx.is_unique }))
  added ++ removed

def calculateSummary (changes : List SchemaDiffItem) : DiffSummary :=
  let count (o : ObjectType) (c : ChangeType) : Nat :=
    (changes.filter (fun it => it.object_type = o && it.change_type = c)).length
  let modifiedTables := dedupKeys (changes.filterMap (fun it =>
    if it.object_type = .column then
      (splitOnChar it.object_path '.').reverse.get? 1
    else Option.none))
  { tables_added := count .table .added
    tables_removed := count .table .removed
    tables_modified := modifiedTables.length
    columns_added := count .column .added
    columns_removed := count .column .removed
    columns_modified := count .column .modified
    indexes_added := count .index .added
    indexes_removed := count .index .removed
    fks_added := count .foreignKey .added
    fks_removed := count .foreignKey .removed
    total_changes := changes.length }

def calculateOverallRisk (changes : List SchemaDiffItem) : DiffRiskLevel :=
  changes.foldl
    (fun acc it => if acc.order < it.risk_level.order then it.risk_level else acc)
    .safe

def diffSnapshots (frm tgt : SchemaSnapshot) : SchemaDiff :=
  let changes :=
    diffTables frm.tables tgt.tables ++
    diffForeignKeys frm.foreign_keys tgt.foreign_keys ++
    diffIndexes frm.indexes tgt.indexes
  { from_version := frm.version
    to_version := tgt.version
    from_checksum := frm.checksum
    to_checksum := tgt.checksum
    changes := changes
    summary := calculateSummary changes
    overall_risk := calculateOverallRisk changes
    has_breaking_changes := changes.any (·.is_breaking) }

/-! ### Blast radius (`src/snapshot/blast_radius.rs`)

`build_dependency_graph` maps each referenced (target) table to the
list of its referencing (source) tables in foreign-key order;
`depsOf` reproduces that per-key list.  `bfsVisit` is the `while let`
loop of `analyze_table`: pop the front, skip already-visited paths,
otherwise record the path, mark it visited and enqueue its not-yet-
visited dependents.  Termination is by the lexicographic measure
(unvisited targets, queue length). -/

inductive ImpactKind
  | table
  | column
  | view
  | index
  | trigger
  | function
  | query
  | service
deriving DecidableEq, Repr

inductive RelationshipType
  | foreignKeyTo
  | foreignKeyFrom
  | viewDependency
  | indexOn
  | queryRead
  | queryWrite
deriving DecidableEq, Repr

structure ImpactedObject where
  object_type : ImpactKind
  path : String
  relationship : RelationshipType
  distance : Nat
  impact : String
  is_direct : Bool
deriving DecidableEq, Repr

structure BlastRadiusSummary where
  direct_tables : Nat
  transitive_tables : Nat
  total_tables : Nat
  total_columns : Nat
  total_indexes : Nat
  max_depth : Nat
deriving DecidableEq, Repr

inductive BlastRiskLevel
  | none
  | contained
  | spreading
  | pandemic
deriving DecidableEq, Repr

structure BlastRadius where
  source_path : String
  impacted : List ImpactedObject
  summary : BlastRadiusSummary
  risk_level : BlastRiskLevel
  explanation : String
deriving DecidableEq, Repr

def qualSource (fk : ForeignKey) : String := fk.source_schema ++ "." ++ fk.source_table

def qualTarget (fk : ForeignKey) : String := fk.referenced_schema ++ "." ++ fk.referenced_table

def depsOf (fks : List ForeignKey) (t : String) : List String :=
  (fks.filter (fun fk => qualTarget fk = t)).map qualSource

def fkTargets (fks : List ForeignKey) : Finset String := (fks.map qualTarget).toFinset

def bfsVisit (fks : List ForeignKey) (queue : List (String × Nat))
    (visited : Finset String) : List (String × Nat) :=
  match queue with
  | [] => []
  | (path, dist) :: rest =>
    if hv : path ∈ visited then
      bfsVisit fks rest visited
    else
      let visited2 := insert path visited
      let newItems := ((depsOf fks path).filter (fun d => d ∉ visited2)).map
        (fun d => (d, dist + 1))
      (path, dist) :: bfsVisit fks (rest ++ newItems) visited2
termination_by ((fkTargets fks \ visited).card, queue.length)
decreasing_by
  · exact Prod.Lex.right _ (Nat.lt_succ_self _)
  · by_cases hU : path ∈ fkTargets fks
    · apply Prod.Lex.left
      apply Finset.card_lt_card
      rw [Finset.ssubset_iff_of_subset
        (Finset.sdiff_subset_sdiff (le_refl _) (Finset.subset_insert _ _))]
      exact ⟨path, Finset.mem_sdiff.mpr ⟨hU, hv⟩,
        fun hmem => (Finset.mem_sdiff.mp hmem).2 (Finset.mem_insert_self _ _)⟩
    · have hdeps : depsOf fks path = [] := by
        simp only [fkTargets, List.mem_toFinset, List.mem_map, not_exists, not_and] at hU
        simp only [depsOf, List.map_eq_nil_iff, List.filter_eq_nil_iff, decide_eq_true_eq]
        intro fk hfk
        exact fun e => hU fk hfk e
      have hcard : fkTargets fks \ insert path visited = fkTargets fks \ visited := by
        rw [Finset.sdiff_insert, Finset.erase_eq_of_not_mem]
        intro hmem
        exact hU (Finset.mem_sdiff.mp hmem).1
      rw [hcard, hdeps]
      exact Prod.Lex.right _ (by simp)

def determineRelationship (fks : List ForeignKey) (src tgt : String) : RelationshipType :=
  match fks with
  | [] => .foreignKeyTo
  | fk :: rest =>
    if qualTarget fk = src ∧ qualSource fk = tgt then .foreignKeyTo
    else if qualSource fk = src ∧ qualTarget fk = tgt then .foreignKeyFrom
    else determineRelationship rest src tgt

def lastComponent (s : String) : String :=
  match (splitOnChar s '.').reverse with
  | [] => s
  | c :: _ => c

def describeImpact (rel : RelationshipType) (src tgt : String) : String :=
  let tgtName := lastComponent tgt
  let srcName := lastComponent src
  match rel with
  | .foreignKeyTo => "Table " ++ tgtName ++ " references " ++ srcName ++ " via foreign key"
  | .foreignKeyFrom => "Table " ++ tgtName ++ " is referenced by " ++ srcName ++ " via foreign key"
  | .viewDependency => "View " ++ tgtName ++ " depends on " ++ srcName
  | .indexOn => "Index on " ++ tgtName ++ " includes column from " ++ srcName
  | .queryRead => "Query reads from " ++ tgtName
  | .queryWrite => "Query writes to " ++ tgtName

def calculateBlastSummary (impacted : List ImpactedObject) : BlastRadiusSummary :=
  let direct := (impacted.filter (fun i => i.is_direct && i.object_type = .table)).length
  let transitive := (impacted.filter (fun i => !i.is_direct && i.object_type = .table)).length
  { direct_tables := direct
    transitive_tables := transitive
    total_tables := direct + transitive
    total_columns := (impacted.filter (fun i => i.object_type = .column)).length
    total_indexes := (impacted.filter (fun i => i.object_type = .index)).length
    max_depth := (impacted.map (·.distance)).foldl max 0 }

/-- From `assess_risk`; the `f64` comparison `total/count > 0.5` is
modelled exactly as `2 * total > count` (with a zero denominator giving
infinity, hence pandemic), faithful for every table count below
`2 ^ 53`. -/
def assessRisk (summary : BlastRadiusSummary) (tableCount : Nat) : BlastRiskLevel :=
  if summary.total_tables = 0 then .none
  else if tableCount = 0 then .pandemic
  else if 2 * summary.total_tables > tableCount then .pandemic
  else if summary.transitive_tables > 0 then .spreading
  else .contained

def generateExplanation (src : String) (summary : BlastRadiusSummary)
    (risk : BlastRiskLevel) : String :=
  let srcName := lastComponent src
  match risk with
  | .none => "No dependencies found for " ++ srcName ++ ". Safe to modify."
  | .contained =>
      "Changes to " ++ srcName ++ " will directly affect " ++
        toString summary.direct_tables ++ " table(s). No transitive dependencies."
  | .spreading =>
      "Changes to " ++ srcName ++ " will cascade to " ++
        toString summary.total_tables ++ " tables (" ++
        toString summary.direct_tables ++ " direct, " ++
        toString summary.transitive_tables ++ " transitive). Review carefully."
  | .pandemic =>
      "CRITICAL: Changes to " ++ srcName ++ " will impact " ++
        toString summary.total_tables ++ " tables! This is a core entity."

/-- The loop body of `analyze_table` applied to the list of
(path, distance) pairs the BFS produced, in production order. -/
def blastFromProcessed (snapshot : SchemaSnapshot) (sourcePath : String)
    (processed : List (String × Nat)) : BlastRadius :=
  let impacted := processed.map (fun pd =>
    let rel := determineRelationship snapshot.foreign_keys sourcePath pd.1
    { object_type := .table
      path := pd.1
      relationship := rel
      distance := pd.2
      impact := describeImpact rel sourcePath pd.1
      is_direct := pd.2 = 1 : ImpactedObject })
  let summary := calculateBlastSummary impacted
  let risk := assessRisk summary snapshot.tables.length
  { source_path := sourcePath
    impacted := impacted
    summary := summary
    risk_level := risk
    explanation := generateExplanation sourcePath summary risk }

def analyzeTable (snapshot : SchemaSnapshot) (schema tableName : String) : BlastRadius :=
  let sourcePath := schema ++ "." ++ tableName
  let initial := (depsOf snapshot.foreign_keys sourcePath).map (fun d => (d, 1))
  blastFromProcessed snapshot sourcePath (bfsVisit snapshot.foreign_keys initial ∅)

/-- From `analyze_column`: direct foreign keys touching the column plus
indexes containing it; the `visited` set deduplicates the other table
of each matching foreign key. -/
def analyzeColumnFks (tablePath colName : String) :
    List ForeignKey → List String → List ImpactedObject
  | [], _ => []
  | fk :: rest, seen =>
    let fkSource := qualSource fk
    let fkTarget := qualTarget fk
    let involves :=
      (fkTarget = tablePath ∧ colName ∈ fk.referenced_columns) ∨
      (fkSource = tablePath ∧ colName ∈ fk.source_columns)
    if involves then
      let other := if fkTarget = tablePath then fkSource else fkTarget
      if other ∈ seen then
        analyzeColumnFks tablePath colName rest seen
      else
        let rel := if fkTarget = tablePath then RelationshipType.foreignKeyTo
          else RelationshipType.foreignKeyFrom
        { object_type := .table
          path := other
          relationship := rel
          distance := 1
          impact := "Table " ++ lastComponent other ++ " has FK relationship via " ++
            fk.constraint_name
          is_direct := true : ImpactedObject } ::
          analyzeColumnFks tablePath colName rest (other :: seen)
    else
      analyzeColumnFks tablePath colName rest seen

def analyzeColumn (snapshot : SchemaSnapshot) (schema tableName colName : String) :
    BlastRadius :=
  let sourcePath := schema ++ "." ++ tableName ++ "." ++ colName
  let tablePath := schema ++ "." ++ tableName
  let fkImpacts := analyzeColumnFks tablePath colName snapshot.foreign_keys []
  let idxImpacts := (snapshot.indexes.filter (fun idx =>
      idx.schema = schema && idx.table = tableName && idx.columns.contains colName)).map
    (fun idx =>
      { object_type := .index
        path := idx.schema ++ "." ++ idx.name
        relationship := .indexOn
        distance := 1
        impact := "Index " ++ idx.name ++ " includes this column (" ++
          (if idx.is_unique then "UNIQUE" else "non-unique") ++ ")"
        is_direct := true : ImpactedObject })
  let impacted := fkImpacts ++ idxImpacts
  let summary := calculateBlastSummary impacted
  let risk := assessRisk summary snapshot.tables.length
  { source_path := sourcePath
    impacted := impacted
    summary := summary
    risk_level := risk
    explanation := generateExplanation sourcePath summary risk }

inductive Severity
  | info
  | warning
  | error
  | block
deriving DecidableEq, Repr

structure RuleViolation where
  rule_id : String
  rule_name : String
  severity : Severity
  message : String
  affected_object : String
  suggestion : Option String
deriving DecidableEq, Repr

inductive RuleCategory
  | dataLoss
  | performance
  | security
  | compatibility
  | bestPractice
deriving DecidableEq, Repr

structure Rule where
  id : String
  name : String
  description : String
  severity : Severity
  enabled : Bool
  category : RuleCategory
deriving DecidableEq, Repr

structure RulesSummary where
  total_rules_checked : Nat
  violations_by_severity : List (String × Nat)
  can_proceed : Bool
  requires_approval : Bool
deriving DecidableEq, Repr

structure RulesResult where
  violations : List RuleViolation
  has_blockers : Bool
  has_errors : Bool
  has_warnings : Bool
  summary : RulesSummary
deriving DecidableEq, Repr

structure RulesEngine where
  rules : List Rule
deriving DecidableEq, Repr

def severityKey : Severity → String
  | .info => "info"
  | .warning => "warning"
  | .error => "error"
  | .block => "block"

def checkDropColumnRule (snapshot : SchemaSnapshot) (change : SchemaDiffItem) :
    List RuleViolation :=
  if change.object_type ≠ ObjectType.column ∨ change.change_type ≠ ChangeType.removed then []
  else
    match splitOnChar change.object_path '.' with
    | [schema, table, column] =>
      let blast := analyzeColumn snapshot schema table column
      if blast.impacted.length > 0 then
        [{ rule_id := "R001"
           rule_name := "Column Drop with Dependencies"
           severity := .block
           message := "Cannot drop column " ++ change.object_path ++ " - it has " ++
             toString blast.impacted.length ++ " dependent objects"
           affected_object := change.object_path
           suggestion := some ("First remove or update these dependencies: " ++
             String.intercalate ", " ((blast.impacted.take 3).map (·.path))) }]
      else []
    | _ => []

def checkDropTableRule (snapshot : SchemaSnapshot) (change : SchemaDiffItem) :
    List RuleViolation :=
  if change.object_type ≠ ObjectType.table ∨ change.change_type ≠ ChangeType.removed then []
  else
    match splitOnChar change.object_path '.' with
    | [schema, table] =>
      let blast := analyzeTable snapshot schema table
      if blast.summary.total_tables > 0 then
        [{ rule_id := "R002"
           rule_name := "Table Drop with Dependencies"
           severity := .block
           message := "Cannot drop table " ++ change.object_path ++ " - " ++
             toString blast.summary.total_tables ++ " other tables depend on it"
           affected_object := change.object_path
           suggestion :=
             some "Drop dependent tables first, or update their foreign keys" }]
      else []
    | _ => []

def checkIndexRemovalRule (change : SchemaDiffItem) : List RuleViolation :=
  if change.object_type ≠ ObjectType.index ∨ change.change_type ≠ ChangeType.removed then []
  else
    match change.before with
    | some before =>
      if ((before.get "isUnique").bind Json.asBool).getD false then
        [{ rule_id := "R003"
           rule_name := "Unique Index Removal"
           severity := .block
           message := "Removing unique index " ++ change.object_path ++
             " could allow duplicate values"
           affected_object := change.object_path
           suggestion :=
             some "Consider adding a unique constraint if uniqueness is required" }]
      else
        [{ rule_id := "R004"
           rule_name := "Index Removal Performance Impact"
           severity := .warning
           message := "Removing index " ++ change.object_path ++
             " may impact query performance"
           affected_object := change.object_path
           suggestion := some "Review query plans before removing indexes" }]
    | Option.none => []

def checkTypeChangeRule (change : SchemaDiffItem) : List RuleViolation :=
  if change.object_type ≠ ObjectType.column ∨ change.change_type ≠ ChangeType.modified then []
  else
    match change.before.bind (fun b => (b.get "dataType").bind Json.asStr),
          change.after.bind (fun a => (a.get "dataType").bind Json.asStr) with
    | some before, some after =>
      if before ≠ after then
        if isNarrowingConversion before after then
          [{ rule_id := "R005"
             rule_name := "Narrowing Type Conversion"
             severity := .error
             message := "Type change " ++ before ++ " → " ++ after ++
               " may cause data loss or truncation in " ++ change.object_path
             affected_object := change.object_path
             suggestion := some ("Consider: 1) Add new column with " ++ after ++
               ", 2) Migrate data, 3) Drop old column") }]
        else []
      else []
    | _, _ => []
where
  isNarrowingConversion (frm tgt : String) : Bool :=
    [("bigint", "integer"), ("bigint", "smallint"), ("integer", "smallint"),
     ("double precision", "real"), ("text", "varchar"), ("varchar", "char"),
     ("timestamp", "date")].any
      (fun p => containsSub (lowerStr frm) p.1 && containsSub (lowerStr tgt) p.2)

def checkNotNullWithoutDefault (change : SchemaDiffItem) : List RuleViolation :=
  if change.object_type ≠ ObjectType.column then []
  else
    let beforeNullable := change.before.bind (fun b => (b.get "nullable").bind Json.asBool)
    let afterNullable := change.after.bind (fun a => (a.get "nullable").bind Json.asBool)
    let afterDefault := change.after.bind (fun a => a.get "defaultValue")
    if beforeNullable = some true ∧ afterNullable = some false ∧ afterDefault.isNone then
      [{ rule_id := "R006"
         rule_name := "NOT NULL Without Default"
         severity := .block
         message := "Cannot set " ++ change.object_path ++
           " to NOT NULL without a default value - existing NULLs will fail"
         affected_object := change.object_path
         suggestion := some
           "Either: 1) Set a default value, 2) Backfill NULLs first, 3) Make it nullable" }]
    else []

def checkRenameWithoutAlias (change : SchemaDiffItem) : List RuleViolation :=
  if change.change_type ≠ ChangeType.renamed then []
  else
    [{ rule_id := "R007"
       rule_name := "Rename Without Alias"
       severity := .warning
       message := "Renaming " ++ change.object_path ++
         " may break existing queries and applications"
       affected_object := change.object_path
       suggestion := some "Consider creating a view alias for backward compatibility" }]

def checkPkModification (change : SchemaDiffItem) : List RuleViolation :=
  if change.object_type ≠ ObjectType.column ∨ change.change_type ≠ ChangeType.modified then []
  else
    let beforePk := (change.before.bind (fun b => (b.get "isPrimaryKey").bind Json.asBool)).getD false
    let afterPk := (change.after.bind (fun a => (a.get "isPrimaryKey").bind Json.asBool)).getD false
    if beforePk ∧ ¬afterPk then
      [{ rule_id := "R008"
         rule_name := "Primary Key Removal"
         severity := .block
         message := "Removing " ++ change.object_path ++
           " from primary key requires careful migration"
         affected_object := change.object_path
         suggestion := some "Create a new table with correct PK and migrate data" }]
    else []

def upperChar (c : Char) : Char :=
  if 97 ≤ c.toNat ∧ c.toNat ≤ 122 then Char.ofNat (c.toNat - 32) else c

/-- ASCII uppercasing, as Rust `to_uppercase` on the action keywords. -/
def upperStr (s : String) : String := String.mk (s.data.map upperChar)

def checkCascadeDelete (change : SchemaDiffItem) : List RuleViolation :=
  if change.object_type ≠ ObjectType.foreignKey ∨ change.change_type ≠ ChangeType.added then []
  else
    let onDelete := (change.after.bind (fun a => (a.get "onDelete").bind Json.asStr)).getD ""
    if upperStr onDelete = "CASCADE" then
      [{ rule_id := "R009"
         rule_name := "CASCADE DELETE Addition"
         severity := .warning
         message := "Adding CASCADE DELETE on " ++ change.object_path ++
           " may cause unexpected data loss"
         affected_object := change.object_path
         suggestion := some "Use RESTRICT or SET NULL if data preservation is important" }]
    else []

def violationsFor (snapshot : SchemaSnapshot) (change : SchemaDiffItem) :
    List RuleViolation :=
  checkDropColumnRule snapshot change ++ checkDropTableRule snapshot change ++
  checkIndexRemovalRule change ++ checkTypeChangeRule change ++
  checkNotNullWithoutDefault change ++ checkRenameWithoutAlias change ++
  checkPkModification change ++ checkCascadeDelete change

def countBySeverity (violations : List RuleViolation) : List (String × Nat) :=
  violations.foldl
    (fun acc v =>
      let k := severityKey v.severity
      if acc.any (fun p => p.1 = k) then
        acc.map (fun p => if p.1 = k then (p.1, p.2 + 1) else p)
      else acc ++ [(k, 1)])
    []

def RulesEngine.evaluate (engine : RulesEngine) (diff : SchemaDiff)
    (snapshot : SchemaSnapshot) : RulesResult :=
  let violations := diff.changes.flatMap (violationsFor snapshot)
  let has_blockers := violations.any (fun v => v.severity = .block)
  let has_errors := violations.any (fun v => v.severity = .error)
  let has_warnings := violations.any (fun v => v.severity = .warning)
  { violations := violations
    has_blockers := has_blockers
    has_errors := has_errors
    has_warnings := has_warnings
    summary :=
      { total_rules_checked := engine.rules.length
        violations_by_severity := countBySeverity violations
        can_proceed := !has_blockers
        requires_approval := has_errors || has_warnings } }

def defaultRules : List Rule :=
  [{ id := "R001", name := "Column Drop with Dependencies",
     description := "Block dropping columns that have foreign key references",
     severity := .block, enabled := true, category := .dataLoss },
   { id := "R002", name := "Table Drop with Dependencies",
     description := "Block dropping tables that are referenced by other tables",
     severity := .block, enabled := true, category := .dataLoss },
   { id := "R003", name := "Unique Index Removal",
     description := "Block removing unique indexes that enforce data integrity",
     severity := .block, enabled := true, category := .dataLoss },
   { id := "R004", name := "Index Removal Performance",
     description := "Warn when removing indexes that may impact performance",
     severity := .warning, enabled := true, category := .performance },
   { id := "R005", name := "Narrowing Type Conversion",
     description := "Error on type changes that may cause data truncation",
     severity := .error, enabled := true, category := .dataLoss },
   { id := "R006", name := "NOT NULL Without Default",
     description := "Block setting NOT NULL on columns without default values",
     severity := .block, enabled := true, category := .compatibility },
   { id := "R007", name := "Rename Without Alias",
     description := "Warn when renaming objects without backward compatibility",
     severity := .warning, enabled := true, category := .compatibility },
   { id := "R008", name := "Primary Key Removal",
     description := "Block removing columns from primary keys",
     severity := .block, enabled := true, category := .dataLoss },
   { id := "R009", name := "CASCADE DELETE Addition",
     description := "Warn when adding CASCADE DELETE foreign keys",
     severity := .warning, enabled := true, category := .dataLoss }]

def RulesEngine.new : RulesEngine := { rules := defaultRules }

structure ColumnDefinition where
  name : String
  data_type : String
  nullable : Bool
  default_value : Option String
  is_primary_key : Bool
  is_unique : Bool
  check_constraint : Option String
deriving DecidableEq, Repr

structure CreateTableChange where
  schema : String
  name : String
  columns : List ColumnDefinition
  primary_key : Option (List String)
deriving DecidableEq, Repr

structure DropTableChange where
  schema : String
  table_name : String
  cascade : Bool
deriving DecidableEq, Repr

structure RenameTableChange where
  schema : String
  old_name : String
  new_name : String
deriving DecidableEq, Repr

structure AddColumnChange where
  schema : String
  table_name : String
  column : ColumnDefinition
  after_column : Option String
deriving DecidableEq, Repr

structure DropColumnChange where
  schema : String
  table_name : String
  column_name : String
  cascade : Bool
deriving DecidableEq, Repr

structure AlterColumnChange where
  schema : String
  table_name : String
  column_name : String
  new_type : Option String
  set_nullable : Option Bool
  set_default : Option String
  drop_default : Option Bool
deriving DecidableEq, Repr

structure RenameColumnChange where
  schema : String
  table_name : String
  old_name : String
  new_name : String
deriving DecidableEq, Repr

structure AddForeignKeyChange where
  constraint_name : String
  source_schema : String
  source_table : String
  source_columns : List String
  referenced_schema : String
  referenced_table : String
  referenced_columns : List String
  on_update : String
  on_delete : String
deriving DecidableEq, Repr

structure DropForeignKeyChange where
  schema : String
  table_name : String
  constraint_name : String
deriving DecidableEq, Repr

structure AddPrimaryKeyChange where
  schema : String
  table_name : String
  columns : List String
  constraint_name : Option String
deriving DecidableEq, Repr

structure DropPrimaryKeyChange where
  schema : String
  table_name : String
  constraint_name : String
deriving DecidableEq, Repr

structure AddUniqueConstraintChange where
  schema : String
  table_name : String
  columns : List String
  constraint_name : String
deriving DecidableEq, Repr

structure DropUniqueConstraintChange where
  schema : String
  table_name : String
  constraint_name : String
deriving DecidableEq, Repr

structure AddIndexChange where
  schema : String
  table_name : String
  name : String
  columns : List String
  is_unique : Bool
  index_type : String
  concurrent : Bool
deriving DecidableEq, Repr

structure DropIndexChange where
  schema : String
  name : String
  concurrent : Bool
deriving DecidableEq, Repr

structure SetPiiChange where
  schema : String
  table_name : String
  column_name : Option String
  level : PiiLevel
deriving DecidableEq, Repr

structure AddTagChange where
  target_path : String
  tag : String
deriving DecidableEq, Repr

structure RemoveTagChange where
  target_path : String
  tag : String
deriving DecidableEq, Repr

structure SetDescriptionChange where
  target_path : String
  description : String
deriving DecidableEq, Repr

inductive SchemaChange
  | createTable (c : CreateTableChange)
  | dropTable (c : DropTableChange)
  | renameTable (c : RenameTableChange)
  | addColumn (c : AddColumnChange)
  | dropColumn (c : DropColumnChange)
  | alterColumn (c : AlterColumnChange)
  | renameColumn (c : RenameColumnChange)
  | addForeignKey (c : AddForeignKeyChange)
  | dropForeignKey (c : DropForeignKeyChange)
  | addPrimaryKey (c : AddPrimaryKeyChange)
  | dropPrimaryKey (c : DropPrimaryKeyChange)
  | addUniqueConstraint (c : AddUniqueConstraintChange)
  | dropUniqueConstraint (c : DropUniqueConstraintChange)
  | addIndex (c : AddIndexChange)
  | dropIndex (c : DropIndexChange)
  | setPiiClassification (c : SetPiiChange)
  | addTag (c : AddTagChange)
  | removeTag (c : RemoveTagChange)
  | setDescription (c : SetDescriptionChange)
deriving DecidableEq, Repr

/-- From `SchemaChange::modifies_database`: governance-only variants do
not touch the database. -/
def SchemaChange.modifiesDatabase : SchemaChange → Bool
  | .setPiiClassification _ | .addTag _ | .removeTag _ | .setDescription _ => false
  | _ => true

/-- From `SchemaChange::description`. -/
def SchemaChange.describe : SchemaChange → String
  | .createTable c => "Create table '" ++ c.schema ++ "." ++ c.name ++ "'"
  | .dropTable c => "Drop table '" ++ c.schema ++ "." ++ c.table_name ++ "'"
  | .renameTable c => "Rename table '" ++ c.old_name ++ "' to '" ++ c.new_name ++ "'"
  | .addColumn c => "Add column '" ++ c.column.name ++ "' to '" ++ c.schema ++ "." ++
      c.table_name ++ "'"
  | .dropColumn c => "Drop column '" ++ c.column_name ++ "' from '" ++ c.schema ++ "." ++
      c.table_name ++ "'"
  | .alterColumn c => "Alter column '" ++ c.column_name ++ "' in '" ++ c.schema ++ "." ++
      c.table_name ++ "'"
  | .renameColumn c => "Rename column '" ++ c.old_name ++ "' to '" ++ c.new_name ++
      "' in '" ++ c.table_name ++ "'"
  | .addForeignKey c => "Add foreign key '" ++ c.constraint_name ++ "' from '" ++
      c.source_schema ++ "." ++ c.source_table ++ "' to '" ++ c.referenced_schema ++
      "." ++ c.referenced_table ++ "'"
  | .dropForeignKey c => "Drop foreign key '" ++ c.constraint_name ++ "'"
  | .addPrimaryKey c => "Add primary key to '" ++ c.schema ++ "." ++ c.table_name ++ "'"
  | .dropPrimaryKey c => "Drop primary key from '" ++ c.schema ++ "." ++ c.table_name ++ "'"
  | .addUniqueConstraint c => "Add unique constraint '" ++ c.constraint_name ++
      "' to '" ++ c.schema ++ "." ++ c.table_name ++ "'"
  | .dropUniqueConstraint c => "Drop unique constraint '" ++ c.constraint_name ++ "'"
  | .addIndex c => "Add index '" ++ c.name ++ "' on '" ++ c.schema ++ "." ++
      c.table_name ++ "'"
  | .dropIndex c => "Drop index '" ++ c.name ++ "'"
  | .setPiiClassification c => "Set PII classification for '" ++ c.table_name ++ "." ++
      (c.column_name.getD "*") ++ "'"
  | .addTag c => "Add tag '" ++ c.tag ++ "' to '" ++ c.target_path ++ "'"
  | .removeTag c => "Remove tag '" ++ c.tag ++ "' from '" ++ c.target_path ++ "'"
  | .setDescription c => "Set description for '" ++ c.target_path ++ "'"

inductive ProposalStatus
  | draft
  | open
  | approved
  | rejected
  | merged
  | closed
deriving DecidableEq, Repr

def ProposalStatus.canEdit : ProposalStatus → Bool
  | .draft => true
  | _ => false

def ProposalStatus.canSubmitForReview : ProposalStatus → Bool
  | .draft => true
  | _ => false

def ProposalStatus.canApprove : ProposalStatus → Bool
  | .open => true
  | _ => false

def ProposalStatus.canExecute : ProposalStatus → Bool
  | .approved => true
  | _ => false

structure Approval where
  id : Nat
  user_id : Nat
  user_name : String
  comment : Option String
deriving DecidableEq, Repr

structure Rejection where
  id : Nat
  user_id : Nat
  user_name : String
  reason : String
deriving DecidableEq, Repr

structure MigrationStatement where
  index : Nat
  sql : String
  rollback_sql : Option String
  description : String
  is_destructive : Bool
  requires_lock : Bool
deriving DecidableEq, Repr

inductive WarningLevel
  | info
  | warning
  | error
  | critical
deriving DecidableEq, Repr

structure MigrationWarning where
  level : WarningLevel
  code : String
  message : String
  change_index : Option Nat
  suggestion : Option String
deriving DecidableEq, Repr

structure MigrationArtifacts where
  forward_sql : String
  rollback_sql : String
  statements : List MigrationStatement
  warnings : List MigrationWarning
deriving DecidableEq, Repr

/-- From `RiskAnalysis`; only the `safety_score` field is read by the
orchestrator, and the `f64` score is modelled as `Rat`. -/
structure RiskAnalysis where
  safety_score : Rat
deriving DecidableEq, Repr

structure ExecutionResult where
  success : Bool
  executed_by : Nat
  error : Option String
  sql_executed : String
  rollback_sql : Option String
  was_rolled_back : Bool
deriving DecidableEq, Repr

structure SchemaProposal where
  id : Nat
  title : String
  description : String
  author_id : Nat
  author_name : String
  status : ProposalStatus
  connection_id : Nat
  base_snapshot_id : Nat
  base_checksum : String
  changes : List SchemaChange
  migration : Option MigrationArtifacts
  risk_analysis : Option RiskAnalysis
  reviewers : List Nat
  approvals : List Approval
  rejections : List Rejection
  execution_result : Option ExecutionResult
deriving DecidableEq, Repr

inductive AppError
  | database (msg : String)
  | pool (msg : String)
  | notConnected (msg : String)
  | validation (msg : String)
  | notFound (msg : String)
  | conflict (msg : String)
  | badRequest (msg : String)
  | internal (msg : String)
  | config (msg : String)
deriving DecidableEq, Repr

/-- HTTP status from `AppError::into_response`. -/
def AppError.statusCode : AppError → Nat
  | .database _ => 500
  | .pool _ => 503
  | .notConnected _ => 400
  | .validation _ => 400
  | .notFound _ => 404
  | .conflict _ => 409
  | .badRequest _ => 400
  | .internal _ => 500
  | .config _ => 500

/-- Wire `code` from `AppError::into_response`. -/
def AppError.wireCode : AppError → String
  | .database _ => "DATABASE_ERROR"
  | .pool _ => "POOL_EXHAUSTED"
  | .notConnected _ => "NOT_CONNECTED"
  | .validation _ => "VALIDATION_ERROR"
  | .notFound _ => "NOT_FOUND"
  | .conflict _ => "CONFLICT"
  | .badRequest _ => "BAD_REQUEST"
  | .internal _ => "INTERNAL_ERROR"
  | .config _ => "CONFIG_ERROR"

/-- Rust `Debug` rendering of `ProposalStatus`, used inside error
messages. -/
def ProposalStatus.debugStr : ProposalStatus → String
  | .draft => "Draft"
  | .open => "Open"
  | .approved => "Approved"
  | .rejected => "Rejected"
  | .merged => "Merged"
  | .closed => "Closed"

/-- From `SchemaProposal::submit_for_review`. -/
def SchemaProposal.submitForReview (p : SchemaProposal) :
    Except AppError SchemaProposal :=
  if !p.status.canSubmitForReview then
    .error (.validation ("Cannot submit proposal with status " ++
      p.status.debugStr ++ " for review"))
  else if p.changes.isEmpty then
    .error (.validation "Cannot submit empty proposal")
  else
    .ok { p with status := .open }

/-- From `SchemaProposal::approve`; the fresh approval id is a model
parameter (Rust draws a random UUID). -/
def SchemaProposal.approve (p : SchemaProposal) (freshId userId : Nat)
    (userName : String) (comment : Option String) : Except AppError SchemaProposal :=
  if !p.status.canApprove then
    .error (.validation ("Cannot approve proposal with status " ++ p.status.debugStr))
  else if p.approvals.any (fun a => a.user_id = userId) then
    .error (.validation "User has already approved this proposal")
  else
    .ok { p with approvals := p.approvals ++
      [{ id := freshId, user_id := userId, user_name := userName, comment := comment }] }

/-- From `SchemaProposal::reject`. -/
def SchemaProposal.reject (p : SchemaProposal) (freshId userId : Nat)
    (userName : String) (reason : String) : Except AppError SchemaProposal :=
  if !p.status.canApprove then
    .error (.validation ("Cannot reject proposal with status " ++ p.status.debugStr))
  else
    .ok { p with
      rejections := p.rejections ++
        [{ id := freshId, user_id := userId, user_name := userName, reason := reason }]
      status := .rejected }

/-- From `SchemaProposal::mark_approved` (unconditional setter). -/
def SchemaProposal.markApproved (p : SchemaProposal) : SchemaProposal :=
  { p with status := .approved }

/-- From `SchemaProposal::mark_merged` (unconditional setter). -/
def SchemaProposal.markMerged (p : SchemaProposal) (er : ExecutionResult) :
    SchemaProposal :=
  { p with status := .merged, execution_result := some er }

/-- From `SchemaProposal::close` (unconditional setter). -/
def SchemaProposal.close (p : SchemaProposal) : SchemaProposal :=
  { p with status := .closed }

/-- From `SchemaProposal::add_change`: mutating `changes` clears the
cached migration and risk analysis. -/
def SchemaProposal.addChange (p : SchemaProposal) (c : SchemaChange) : SchemaProposal :=
  { p with
    changes := p.changes ++ [c]
    migration := Option.none
    risk_analysis := Option.none }

def quoted (s : String) : String := "\"" ++ s ++ "\""

def qualQuoted (schema name : String) : String := quoted schema ++ "." ++ quoted name

def quotedJoin (cols : List String) : String :=
  String.intercalate ", " (cols.map quoted)

def columnDefSql (col : ColumnDefinition) : String :=
  quoted col.name ++ " " ++ col.data_type ++
  (if !col.nullable then " NOT NULL" else "") ++
  (match col.default_value with
   | some d => " DEFAULT " ++ d
   | Option.none => "") ++
  (if col.is_unique && !col.is_primary_key then " UNIQUE" else "")

def generateSqlForChange : SchemaChange → String × Option String
  | .createTable c =>
      let cols := String.intercalate ",\n    " (c.columns.map columnDefSql)
      let pkPart := match c.primary_key with
        | some pkCols =>
            ",\n    PRIMARY KEY (\"" ++ String.intercalate "\", \"" pkCols ++ "\")"
        | Option.none => ""
      ("CREATE TABLE " ++ qualQuoted c.schema c.name ++ " (\n    " ++ cols ++ "\n" ++
         pkPart ++ "\n);",
       some ("DROP TABLE IF EXISTS " ++ qualQuoted c.schema c.name ++ " CASCADE;"))
  | .dropTable c =>
      ("DROP TABLE " ++ qualQuoted c.schema c.table_name ++
         (if c.cascade then " CASCADE" else "") ++
         ";\n-- WARNING: This will permanently delete all data!",
       Option.none)
  | .renameTable c =>
      ("ALTER TABLE " ++ qualQuoted c.schema c.old_name ++ " RENAME TO " ++
         quoted c.new_name ++ ";",
       some ("ALTER TABLE " ++ qualQuoted c.schema c.new_name ++ " RENAME TO " ++
         quoted c.old_name ++ ";"))
  | .addColumn c =>
      let colDef := quoted c.column.name ++ " " ++ c.column.data_type ++
        (if !c.column.nullable then " NOT NULL" else "") ++
        (match c.column.default_value with
         | some d => " DEFAULT " ++ d
         | Option.none => "")
      ("ALTER TABLE " ++ qualQuoted c.schema c.table_name ++ " ADD COLUMN " ++
         colDef ++ ";",
       some ("ALTER TABLE " ++ qualQuoted c.schema c.table_name ++ " DROP COLUMN " ++
         quoted c.column.name ++ " CASCADE;"))
  | .dropColumn c =>
      ("ALTER TABLE " ++ qualQuoted c.schema c.table_name ++ " DROP COLUMN " ++
         quoted c.column_name ++ (if c.cascade then " CASCADE" else "") ++
         ";\n-- WARNING: This will permanently delete column data!",
       Option.none)
  | .alterColumn c =>
      let stmts : List String :=
        (match c.new_type with
         | some t =>
             ["ALTER TABLE " ++ qualQuoted c.schema c.table_name ++ " ALTER COLUMN " ++
              quoted c.column_name ++ " TYPE " ++ t ++ " USING " ++
              quoted c.column_name ++ "::" ++ t ++ ";"]
         | Option.none => []) ++
        (match c.set_nullable with
         | some true =>
             ["ALTER TABLE " ++ qualQuoted c.schema c.table_name ++ " ALTER COLUMN " ++
              quoted c.column_name ++ " DROP NOT NULL;"]
         | some false =>
             ["ALTER TABLE " ++ qualQuoted c.schema c.table_name ++ " ALTER COLUMN " ++
              quoted c.column_name ++ " SET NOT NULL;"]
         | Option.none => []) ++
        (match c.set_default with
         | some d =>
             ["ALTER TABLE " ++ qualQuoted c.schema c.table_name ++ " ALTER COLUMN " ++
              quoted c.column_name ++ " SET DEFAULT " ++ d ++ ";"]
         | Option.none => []) ++
        (if c.drop_default.getD false then
             ["ALTER TABLE " ++ qualQuoted c.schema c.table_name ++ " ALTER COLUMN " ++
              quoted c.column_name ++ " DROP DEFAULT;"]
         else [])
      (String.intercalate "\n" stmts, Option.none)
  | .renameColumn c =>
      ("ALTER TABLE " ++ qualQuoted c.schema c.table_name ++ " RENAME COLUMN " ++
         quoted c.old_name ++ " TO " ++ quoted c.new_name ++ ";",
       some ("ALTER TABLE " ++ qualQuoted c.schema c.table_name ++ " RENAME COLUMN " ++
         quoted c.new_name ++ " TO " ++ quoted c.old_name ++ ";"))
  | .addForeignKey c =>
      ("ALTER TABLE " ++ qualQuoted c.source_schema c.source_table ++
         " ADD CONSTRAINT " ++ quoted c.constraint_name ++ " FOREIGN KEY (" ++
         quotedJoin c.source_columns ++ ") REFERENCES " ++
         qualQuoted c.referenced_schema c.referenced_table ++ " (" ++
         quotedJoin c.referenced_columns ++ ") ON UPDATE " ++ c.on_update ++
         " ON DELETE " ++ c.on_delete ++ ";",
       some ("ALTER TABLE " ++ qualQuoted c.source_schema c.source_table ++
         " DROP CONSTRAINT " ++ quoted c.constraint_name ++ ";"))
  | .dropForeignKey c =>
      ("ALTER TABLE " ++ qualQuoted c.schema c.table_name ++ " DROP CONSTRAINT " ++
         quoted c.constraint_name ++ ";",
       Option.none)
  | .addPrimaryKey c =>
      let constraintName := c.constraint_name.getD (c.table_name ++ "_pkey")
      ("ALTER TABLE " ++ qualQuoted c.schema c.table_name ++ " ADD CONSTRAINT " ++
         quoted constraintName ++ " PRIMARY KEY (" ++ quotedJoin c.columns ++ ");",
       some ("ALTER TABLE " ++ qualQuoted c.schema c.table_name ++ " DROP CONSTRAINT " ++
         quoted constraintName ++ ";"))
  | .dropPrimaryKey c =>
      ("ALTER TABLE " ++ qualQuoted c.schema c.table_name ++ " DROP CONSTRAINT " ++
         quoted c.constraint_name ++ ";",
       Option.none)
  | .addUniqueConstraint c =>
      ("ALTER TABLE " ++ qualQuoted c.schema c.table_name ++ " ADD CONSTRAINT " ++
         quoted c.constraint_name ++ " UNIQUE (" ++ quotedJoin c.columns ++ ");",
       some ("ALTER TABLE " ++ qualQuoted c.schema c.table_name ++ " DROP CONSTRAINT " ++
         quoted c.constraint_name ++ ";"))
  | .dropUniqueConstraint c =>
      ("ALTER TABLE " ++ qualQuoted c.schema c.table_name ++ " DROP CONSTRAINT " ++
         quoted c.constraint_name ++ ";",
       Option.none)
  | .addIndex c =>
      ("CREATE " ++ (if c.is_unique then "UNIQUE " else "") ++ "INDEX " ++
         (if c.concurrent then "CONCURRENTLY " else "") ++ quoted c.name ++ " ON " ++
         qualQuoted c.schema c.table_name ++ " USING " ++ c.index_type ++ " (" ++
         quotedJoin c.columns ++ ");",
       some ("DROP INDEX " ++ (if c.concurrent then "CONCURRENTLY " else "") ++
         qualQuoted c.schema c.name))
  | .dropIndex c =>
      ("DROP INDEX " ++ (if c.concurrent then "CONCURRENTLY " else "") ++
         qualQuoted c.schema c.name,
       Option.none)
  | .setPiiClassification _ | .addTag _ | .removeTag _ | .setDescription _ =>
      ("-- Governance metadata change (no SQL)", Option.none)

def warningsForChange (index : Nat) : SchemaChange → List MigrationWarning
  | .dropTable _ | .dropColumn _ =>
      [{ level := .critical
         code := "DESTRUCTIVE_CHANGE"
         message :=
           "This change permanently deletes data and cannot be automatically rolled back."
         change_index := some index
         suggestion := some "Ensure you have a backup before proceeding." }]
  | .alterColumn c =>
      if c.new_type.isSome then
        [{ level := .warning
           code := "TYPE_CHANGE"
           message := "Type changes may fail if existing data cannot be converted."
           change_index := some index
           suggestion := some "Test on a non-production database first." }]
      else if c.set_nullable = some false then
        [{ level := .warning
           code := "NOT_NULL_CONSTRAINT"
           message := "Adding NOT NULL will fail if the column contains NULL values."
           change_index := some index
           suggestion := some "Ensure all rows have values or provide a default." }]
      else []
  | _ => []

def changeRequiresLock : SchemaChange → Bool
  | .addColumn _ | .alterColumn _ | .dropColumn _ | .addForeignKey _
  | .addPrimaryKey _ => true
  | _ => false

def changeIsDestructive : SchemaChange → Bool
  | .dropTable _ | .dropColumn _ => true
  | _ => false

def migrationStatementFor (index : Nat) (change : SchemaChange) : MigrationStatement :=
  let sqls := generateSqlForChange change
  { index := index
    sql := sqls.1
    rollback_sql := sqls.2
    description := change.describe
    is_destructive := changeIsDestructive change
    requires_lock := changeRequiresLock change }

/-- From `ProposalService::generate_migration`: governance-only changes
are skipped, statements keep their original change index, warnings are
collected in order, and the overall rollback joins the per-statement
rollbacks in reverse declaration order. -/
def generateMigration (p : SchemaProposal) : MigrationArtifacts :=
  let indexed := p.changes.enum.filter (fun ic => ic.2.modifiesDatabase)
  let statements := indexed.map (fun ic => migrationStatementFor ic.1 ic.2)
  let warnings := indexed.flatMap (fun ic => warningsForChange ic.1 ic.2)
  { forward_sql := String.intercalate "\n\n" (statements.map (·.sql))
    rollback_sql := String.intercalate "\n\n"
      (statements.filterMap (·.rollback_sql)).reverse
    statements := statements
    warnings := warnings }

def appErrorDisplay : AppError → String
  | .database m => "Database error: " ++ m
  | .pool m => "Pool error: " ++ m
  | .notConnected m => "Connection not established: " ++ m
  | .validation m => "Validation error: " ++ m
  | .notFound m => "Not found: " ++ m
  | .conflict m => "Conflict: " ++ m
  | .badRequest m => "Bad request: " ++ m
  | .internal m => "Internal error: " ++ m
  | .config m => "Configuration error: " ++ m

/-- From `Orchestrator::validate_execution_ready`; the score text in
the low-score message is elided (Rust formats the `f64` with one
decimal, which no claim reads). -/
def validateExecutionReady (p : SchemaProposal) : Except AppError Unit :=
  if !p.status.canExecute then
    .error (.validation ("Proposal status " ++ p.status.debugStr ++
      " is not eligible for execution. Must be 'Approved'."))
  else if p.changes.isEmpty then
    .error (.validation "Proposal has no changes to execute")
  else
    match p.risk_analysis with
    | some risk =>
        if risk.safety_score < 10 then
          .error (.validation
            "Proposal risk score is too low for automatic execution. Manual intervention required.")
        else .ok ()
    | Option.none => .ok ()

def driftMessage (base current : String) : String :=
  "Schema has drifted since proposal was created. Please refresh and re-analyze. " ++
  "Base checksum: " ++ base ++ ", Current checksum: " ++ current

def firstFailure (stmts : List MigrationStatement) (stmtFails : Nat → Option String) :
    Option (MigrationStatement × String) :=
  match stmts with
  | [] => Option.none
  | s :: rest =>
    match stmtFails s.index with
    | some e => some (s, e)
    | Option.none => firstFailure rest stmtFails

/-- From `Orchestrator::dry_run_execution`; `validateFails` abstracts
the per-statement EXPLAIN/PREPARE validation outcome. -/
def dryRunExecution (migration : MigrationArtifacts)
    (validateFails : Nat → Option String) : ExecutionResult :=
  let errors := migration.statements.filterMap (fun s =>
    (validateFails s.index).map (fun e =>
      "Statement " ++ toString s.index ++ ": " ++ s.description ++ " - " ++ e))
  { success := errors.isEmpty
    executed_by := 0
    error := if errors.isEmpty then Option.none else some (String.intercalate "\n" errors)
    sql_executed := "-- DRY RUN --\n" ++ migration.forward_sql
    rollback_sql := Option.none
    was_rolled_back := false }

structure ExecTrace where
  result : Except AppError ExecutionResult
  tx_opened : Bool
deriving Repr

/-- From `Orchestrator::execute`. -/
def orchestratorExecute (p : SchemaProposal) (live : LiveSchema) (executorId : Nat)
    (dryRun : Bool) (stmtFails validateFails : Nat → Option String) : ExecTrace :=
  match validateExecutionReady p with
  | .error e => { result := .error e, tx_opened := false }
  | .ok _ =>
    match p.migration with
    | Option.none =>
        { result := .error (.validation "Proposal has no generated migration")
          tx_opened := false }
    | some migration =>
      let current := computeCurrentChecksum live
      if current ≠ p.base_checksum then
        { result := .error (.validation (driftMessage p.base_checksum current))
          tx_opened := false }
      else if dryRun then
        { result := .ok (dryRunExecution migration validateFails), tx_opened := false }
      else
        match firstFailure migration.statements stmtFails with
        | some se =>
            { result := .ok
                { success := false
                  executed_by := executorId
                  error := some (appErrorDisplay (.internal ("Statement '" ++
                    se.1.description ++ "' failed: " ++ se.2)))
                  sql_executed := migration.forward_sql
                  rollback_sql := some migration.rollback_sql
                  was_rolled_back := true }
              tx_opened := true }
        | Option.none =>
            { result := .ok
                { success := true
                  executed_by := executorId
                  error := Option.none
                  sql_executed := migration.forward_sql
                  rollback_sql := some migration.rollback_sql
                  was_rolled_back := false }
              tx_opened := true }

structure SnapshotStoreState where
  snapshots : Nat → List (Nat × SchemaSnapshot)
  versions : Nat → Option Nat
  baselines : Nat → Option Nat

def emptyStore : SnapshotStoreState :=
  { snapshots := fun _ => []
    versions := fun _ => Option.none
    baselines := fun _ => Option.none }

/-- From `SnapshotStore::save`: the assigned version is the stored
per-connection counter (0 when absent) plus one. -/
def storeSave (st : SnapshotStoreState) (snap : SchemaSnapshot) :
    SnapshotStoreState × SchemaSnapshot :=
  let cid := snap.connection_id
  let newVersion := (st.versions cid).getD 0 + 1
  let snap2 := { snap with version := newVersion }
  ({ st with
      versions := fun c => if c = cid then some newVersion else st.versions c
      snapshots := fun c =>
        if c = cid then
          (newVersion, snap2) :: (st.snapshots cid).filter (fun pr => pr.1 ≠ newVersion)
        else st.snapshots c },
   snap2)

/-- From `SnapshotStore::get_latest`. -/
def storeGetLatest (st : SnapshotStoreState) (cid : Nat) : Option SchemaSnapshot :=
  match st.versions cid with
  | Option.none => Option.none
  | some v => ((st.snapshots cid).find? (fun pr => pr.1 = v)).map Prod.snd

def natGe (a b : Nat) : Bool := b ≤ a

/-- From `SnapshotStore::prune`: keep the newest `keep` versions of the
connection, sorted by version descending. -/
def storePrune (st : SnapshotStoreState) (cid : Nat) (keep : Nat) :
    SnapshotStoreState × Nat :=
  let m := st.snapshots cid
  if m.length ≤ keep then (st, 0)
  else
    let versionsDesc := (m.map Prod.fst).mergeSort natGe
    let toRemove := versionsDesc.drop keep
    ({ st with
        snapshots := fun c =>
          if c = cid then m.filter (fun pr => !toRemove.contains pr.1)
          else st.snapshots c },
     toRemove.length)

inductive StoreOp
  | save (snap : SchemaSnapshot)
  | prune (cid : Nat) (keep : Nat)

def storeStep (st : SnapshotStoreState) : StoreOp → SnapshotStoreState
  | .save snap => (storeSave st snap).1
  | .prune cid keep => (storePrune st cid keep).1

def storeRun (ops : List StoreOp) : SnapshotStoreState :=
  ops.foldl storeStep emptyStore

def StoreOp.isSaveFor (cid : Nat) : StoreOp → Bool
  | .save snap => snap.connection_id = cid
  | .prune _ _ => false

def savesFor (cid : Nat) (ops : List StoreOp) : Nat :=
  (ops.filter (StoreOp.isSaveFor cid)).length

/-- Restriction of Claim C6 to prunes that keep at least the newest
snapshot (the claim speaks of prune removing older versions). -/
def StoreOp.keepsLatest : StoreOp → Bool
  | .save _ => true
  | .prune _ keep => 1 ≤ keep

def colId : Column :=
  { name := "id", data_type := "integer", nullable := false,
    default_value := Option.none, is_primary_key := true, is_unique := true,
    ordinal_position := 1, pii_classification := Option.none,
    description := Option.none, tags := [] }

def usersTable : Table :=
  { name := "users", schema := "public", columns := [colId], primary_key := Option.none }

def ordersTable : Table :=
  { name := "orders", schema := "public", columns := [], primary_key := Option.none }

def ordersUserFk : ForeignKey :=
  { constraint_name := "orders_user_fk", source_schema := "public",
    source_table := "orders", source_columns := ["user_id"],
    referenced_schema := "public", referenced_table := "users",
    referenced_columns := ["id"], on_update := "NO ACTION", on_delete := "CASCADE" }

def mkFk (nm : String) : ForeignKey :=
  { constraint_name := nm, source_schema := "public", source_table := "s",
    source_columns := ["x"], referenced_schema := "public", referenced_table := "t",
    referenced_columns := ["y"], on_update := "NO ACTION", on_delete := "NO ACTION" }

def mkSnapshot (tables : List Table) (fks : List ForeignKey) (idxs : List Index) :
    SchemaSnapshot :=
  { id := 1, connection_id := 1, version := 1, tables := tables,
    foreign_keys := fks, indexes := idxs,
    checksum := computeChecksum tables fks idxs }

def mkProposal (status : ProposalStatus) (baseChecksum : String)
    (changes : List SchemaChange) (migration : Option MigrationArtifacts) :
    SchemaProposal :=
  { id := 1, title := "p", description := "", author_id := 1, author_name := "author",
    status := status, connection_id := 1, base_snapshot_id := 1,
    base_checksum := baseChecksum, changes := changes, migration := migration,
    risk_analysis := Option.none, reviewers := [], approvals := [], rejections := [],
    execution_result := Option.none }

def traceError (t : ExecTrace) : Option AppError :=
  match t.result with
  | .error e => some e
  | .ok _ => Option.none

def traceOk (t : ExecTrace) : Option ExecutionResult :=
  match t.result with
  | .ok r => some r
  | .error _ => Option.none

/-- Content of a table in the sense of Claim C1: schema, name, and the
columns compared by name, data type and nullability. -/
def tableContentKey (t : Table) : String × String × List (String × String × Bool) :=
  (t.schema, t.name, t.columns.map (fun c => (c.name, c.data_type, c.nullable)))

/-- Structural snapshot equality in the sense of Claim C1: the same set
of tables (per `tableContentKey`) and the same set of foreign keys,
irrespective of sequence order. -/
def claimStructEq (s1 s2 : SchemaSnapshot) : Prop :=
  (s1.tables.map tableContentKey).Perm (s2.tables.map tableContentKey) ∧
  s1.foreign_keys.Perm s2.foreign_keys

/-- The part of a table `compute_checksum` actually reads: the
qualified name and the per-column (name, data type) sequence. -/
def tableHashKey (t : Table) : String × List (String × String) :=
  (t.schema ++ "." ++ t.name, t.columns.map (fun c => (c.name, c.data_type)))

/-- The part of a foreign key `compute_checksum` actually reads. -/
def fkHashKey (fk : ForeignKey) : String × String :=
  (fk.constraint_name, fk.referenced_table)

def snapFkAB : SchemaSnapshot := mkSnapshot [] [mkFk "a", mkFk "b"] []

def snapFkBA : SchemaSnapshot := mkSnapshot [] [mkFk "b", mkFk "a"] []

def mergedProposal : SchemaProposal := mkProposal .merged "c" [] Option.none

def draftProposal : SchemaProposal := mkProposal .draft "c" [] Option.none

def closedProposal : SchemaProposal := mkProposal .closed "c" [] Option.none

/-- The four drop variants the claim groups together. -/
def SchemaChange.isDropArtifact : SchemaChange → Bool
  | .dropTable _ | .dropColumn _ | .dropForeignKey _ | .dropIndex _ => true
  | _ => false

def dropIndexProposal : SchemaProposal :=
  mkProposal .draft "c"
    [.dropIndex { schema := "public", name := "idx_users_email", concurrent := false }]
    Option.none

def dropTableProposal : SchemaProposal :=
  mkProposal .draft "c"
    [.dropTable { schema := "public", table_name := "users", cascade := false }]
    Option.none

def claimWideningAllowList : List (String × String) :=
  [("smallint", "integer"), ("integer", "bigint"), ("smallint", "bigint"),
   ("real", "double precision"), ("char", "varchar"), ("varchar", "text"),
   ("char", "text")]

def colCharEmail : Column :=
  { name := "email", data_type := "char", nullable := true,
    default_value := Option.none, is_primary_key := false, is_unique := false,
    ordinal_position := 2, pii_classification := Option.none,
    description := Option.none, tags := [] }

def colVarchar2Email : Column := { colCharEmail with data_type := "varchar2" }

def colIntId : Column := { colCharEmail with name := "id", data_type := "integer" }

def colBigId : Column := { colIntId with data_type := "bigint" }

def usersNullableTable : Table :=
  { usersTable with columns :=
      [{ colId with nullable := true, is_unique := false, default_value := some "0" }] }

def emailIdx : Index :=
  { name := "idx_users_email", schema := "public", table := "users",
    columns := ["email"], is_unique := false, is_primary := false,
    index_type := "btree" }

def emailColumnDef : ColumnDefinition :=
  { name := "email", data_type := "text", nullable := true,
    default_value := Option.none, is_primary_key := false, is_unique := false,
    check_constraint := Option.none }

def addEmailChange : SchemaChange :=
  .addColumn { schema := "public", table_name := "users", column := emailColumnDef,
               after_column := Option.none }

def staleProposal : SchemaProposal :=
  mkProposal .approved "stale" [addEmailChange]
    (some (generateMigration (mkProposal .draft "stale" [addEmailChange] Option.none)))

def emptyLive : LiveSchema := { tables := [], indexes := [] }

def noFailures : Nat → Option String := fun _ => Option.none

def versionNat (st : SnapshotStoreState) (cid : Nat) : Nat := (st.versions cid).getD 0

/-- The store invariant for one connection: when the version counter is
set, the newest stored snapshot is the head of the association list,
carries the counter as its version, and every other key is older. -/
def storeInv (st : SnapshotStoreState) (cid : Nat) : Prop :=
  (st.versions cid = Option.none → st.snapshots cid = []) ∧
  (∀ n, st.versions cid = some n →
    1 ≤ n ∧ ∃ snap rest, st.snapshots cid = (n, snap) :: rest ∧
      snap.version = n ∧ ∀ pr ∈ rest, pr.1 < n)

def sampleSaveSnap : SchemaSnapshot := mkSnapshot [] [] []

def sampleOps : List StoreOp :=
  [.save sampleSaveSnap, .save sampleSaveSnap, .prune 1 1, .save sampleSaveSnap]

def baseSnap : SchemaSnapshot := mkSnapshot [usersTable, ordersTable] [ordersUserFk] []

def droppedSnap : SchemaSnapshot := mkSnapshot [ordersTable] [] []

def liveBase : LiveSchema := { tables := [usersTable, ordersTable], indexes := [] }

def dropUsersChange : SchemaChange :=
  .dropTable { schema := "public", table_name := "users", cascade := false }

def dropUsersProposal : SchemaProposal :=
  mkProposal .approved (computeCurrentChecksum liveBase) [dropUsersChange]
    (some (generateMigration (mkProposal .draft "x" [dropUsersChange] Option.none)))

/-- The `Removed` table item the diff of `baseSnap` against
`droppedSnap` contains for `public.users`. -/
def removedUsersItem : SchemaDiffItem :=
  { change_type := .removed
    object_type := .table
    object_path := "public.users"
    description := "Table public.users dropped (1 columns, all data lost)"
    before := some (tableJson usersTable)
    after := Option.none
    risk_level := .critical
    is_breaking := true }

/-- The `Removed` foreign-key item of the same diff. -/
def removedFkItem : SchemaDiffItem :=
  { change_type := .removed
    object_type := .foreignKey
    object_path := "public.orders.orders_user_fk"
    description := "FK orders_user_fk dropped (referential integrity removed)"
    before := some (foreignKeyJson ordersUserFk)
    after := Option.none
    risk_level := .medium
    is_breaking := false }

def r002Violation : RuleViolation :=
  { rule_id := "R002"
    rule_name := "Table Drop with Dependencies"
    severity := .block
    message := "Cannot drop table public.users - 1 other tables depend on it"
    affected_object := "public.users"
    suggestion := some "Drop dependent tables first, or update their foreign keys" }

lemma depsOf_eq_nil_of_not_target {fks : List ForeignKey} {t : String}
    (h : t ∉ fkTargets fks) : depsOf fks t = [] := by
  simp only [fkTargets, List.mem_toFinset, List.mem_map, not_exists, not_and] at h
  simp only [depsOf, List.map_eq_nil_iff, List.filter_eq_nil_iff, decide_eq_true_eq]
  intro fk hfk
  exact fun e => h fk hfk e

/-! ### Rules engine (`src/snapshot/rules.rs`)

`RulesEngine::evaluate` runs the eight check functions (covering rules
R001 to R009) over every diff item; the configured registry
`RulesEngine.rules` is read only for `total_rules_checked`.  The
`violations_by_severity` `HashMap` is modelled as an association list
in first-occurrence order. -/

/-! ### Schema changes (`src/pipeline/types.rs`) -/

/-! ### Proposal model and state machine
(`src/pipeline/types.rs`, `src/pipeline/proposal.rs`) -/

/-! Error type (`src/error.rs`).  `Database` and `Pool` wrap foreign
error values; only their message text matters to the response. -/

/-! ### Migration generator (`src/pipeline/proposal.rs`)

`generate_sql_for_change` is infallible in the source (every arm
returns `Ok`), so it is modelled as a total function; `quoted` is the
double-quote wrapping the source applies to identifiers. -/

/-! ### Orchestrator (`src/pipeline/orchestrator.rs`)

`Orchestrator::execute` is modelled as a pure function of the
proposal, the live schema (read by the pre-flight query), and two
oracles giving the per-statement outcomes of real execution and of
dry-run validation.  `tx_opened` records whether
`client.transaction()` was reached.  Pool acquisition and commit are
modelled as succeeding; every claim here concerns the paths before or
independent of those failures. -/

/-! ### Snapshot store (`src/snapshot/store.rs`)

The three `HashMap`s behind the `RwLock`s become functions from
connection id; the per-connection version map becomes an association
list whose `insert` replaces an existing key, exactly
`HashMap::insert`.  Rust holds the `versions` write lock for the whole
of `save`, so `save` and `prune` are modelled as atomic state
transitions. -/

/-! ### Concrete sample data used by witnesses and counterexamples -/

/-! ## Theorems for the claims -/

/-- Claim C9: `compute_checksum` ignores its `indexes` argument and the
orchestrator pre-flight checksum reads only table/column metadata, so
drift confined to indexes never fails the pre-flight check. -/
theorem checksum_and_preflight_ignore_indexes :
    ∀ (tables : List Table) (fks : List ForeignKey) (i1 i2 : List Index)
      (p : SchemaProposal) (lt : List Table) (executorId : Nat) (dryRun : Bool)
      (sf vf : Nat → Option String),
      computeChecksum tables fks i1 = computeChecksum tables fks i2 ∧
      computeCurrentChecksum ⟨lt, i1⟩ = computeCurrentChecksum ⟨lt, i2⟩ ∧
      orchestratorExecute p ⟨lt, i1⟩ executorId dryRun sf vf =
        orchestratorExecute p ⟨lt, i2⟩ executorId dryRun sf vf :=
  fun _ _ _ _ _ _ _ _ _ _ => ⟨rfl, rfl, rfl⟩

/-- Claim C10: `RulesEngine::evaluate` produces the same violations and
flags whatever the `enabled` fields of the registry say (all checks run
unconditionally), and `total_rules_checked` equals the registry size;
the default registry has nine rules. -/
theorem rules_enabled_flag_ignored :
    ∀ (rules : List Rule) (f : Rule → Bool) (diff : SchemaDiff)
      (snapshot : SchemaSnapshot),
      (RulesEngine.evaluate ⟨rules.map (fun r => { r with enabled := f r })⟩
          diff snapshot).violations =
        (RulesEngine.evaluate ⟨rules⟩ diff snapshot).violations ∧
      (RulesEngine.evaluate ⟨rules.map (fun r => { r with enabled := f r })⟩
          diff snapshot).summary.total_rules_checked = rules.length ∧
      (RulesEngine.evaluate ⟨rules⟩ diff snapshot).summary.total_rules_checked =
        rules.length ∧
      RulesEngine.new.rules.length = 9 := by
  intro rules f diff snapshot
  refine ⟨rfl, ?_, rfl, rfl⟩
  simp [RulesEngine.evaluate]

/-- Claim C4 counterexample: `mark_approved` changes the status of an
already-`Merged` proposal, so `Merged` is not terminal for the model's
own operations. -/
theorem terminal_status_counterexample :
    mergedProposal.status = .merged ∧
    mergedProposal.markApproved.status = .approved ∧
    ProposalStatus.approved ≠ ProposalStatus.merged :=
  ⟨rfl, rfl, by decide⟩

/-- Claim C4 amended: `Draft` proposals can never be approved, and the
guarded operations (`submit_for_review`, `approve`, `reject`) all fail
on the terminal statuses `Merged`, `Closed`, `Rejected`; but the
unconditional setters `mark_approved`, `mark_merged` and `close` change
any status, so terminality is enforced only by the guarded operations
and their callers, not by the setters. -/
theorem proposal_state_machine :
    (∀ (p : SchemaProposal) (fid uid : Nat) (un : String) (c : Option String),
      p.status = .draft →
        p.approve fid uid un c =
          .error (.validation "Cannot approve proposal with status Draft")) ∧
    (∀ (p : SchemaProposal) (fid uid : Nat) (un reason : String) (c : Option String),
      (p.status = .merged ∨ p.status = .closed ∨ p.status = .rejected) →
        (∃ e1, p.approve fid uid un c = .error e1) ∧
        (∃ e2, p.reject fid uid un reason = .error e2) ∧
        (∃ e3, p.submitForReview = .error e3)) ∧
    (∀ (p : SchemaProposal) (er : ExecutionResult),
      p.markApproved.status = .approved ∧ (p.markMerged er).status = .merged ∧
      p.close.status = .closed) := by
  refine ⟨?_, ?_, fun p er => ⟨rfl, rfl, rfl⟩⟩
  · intro p fid uid un c h
    simp [SchemaProposal.approve, ProposalStatus.canApprove, h, ProposalStatus.debugStr]
  · intro p fid uid un reason c h
    have hcan : p.status.canApprove = false := by
      rcases h with h | h | h <;> simp [ProposalStatus.canApprove, h]
    have hsub : p.status.canSubmitForReview = false := by
      rcases h with h | h | h <;> simp [ProposalStatus.canSubmitForReview, h]
    refine ⟨⟨.validation ("Cannot approve proposal with status " ++ p.status.debugStr), ?_⟩,
      ⟨.validation ("Cannot reject proposal with status " ++ p.status.debugStr), ?_⟩,
      ⟨.validation ("Cannot submit proposal with status " ++ p.status.debugStr ++
        " for review"), ?_⟩⟩
    · simp [SchemaProposal.approve, hcan]
    · simp [SchemaProposal.reject, hcan]
    · simp [SchemaProposal.submitForReview, hsub]

/-- Claim C4 witness: the state-machine theorem applied to a concrete
draft proposal and a concrete closed proposal. -/
theorem proposal_state_machine_witness :
    (draftProposal.approve 1 2 "u" Option.none =
      .error (.validation "Cannot approve proposal with status Draft")) ∧
    (∃ e1, closedProposal.approve 1 2 "u" Option.none = .error e1) ∧
    (∃ e3, closedProposal.submitForReview = .error e3) :=
  ⟨proposal_state_machine.1 draftProposal 1 2 "u" Option.none rfl,
   (proposal_state_machine.2.1 closedProposal 1 2 "u" "r" Option.none
      (Or.inr (Or.inl rfl))).1,
   (proposal_state_machine.2.1 closedProposal 1 2 "u" "r" Option.none
      (Or.inr (Or.inl rfl))).2.2⟩

/-- Claim C5 counterexample: a `DropIndex` change generates a statement
with `is_destructive = false` (the source marks only `DropTable` and
`DropColumn` destructive), refuting the claim that all four drop kinds
get `is_destructive = true`. -/
theorem dropindex_not_destructive_counterexample :
    ((generateMigration dropIndexProposal).statements.map (·.is_destructive)) = [false] ∧
    ((generateMigration dropIndexProposal).statements.map (·.rollback_sql)) =
      [Option.none] := by
  decide

/-- Claim C5 amended: every generated statement keeps its change index;
all four drop kinds (and only the source's choices) have
`rollback_sql = None`, but `is_destructive` is true exactly for
`DropTable` and `DropColumn`; the artifact's overall `rollback_sql`
joins the per-statement rollbacks in reverse declaration order. -/
theorem generate_migration_drop_statements :
    ∀ (p : SchemaProposal),
      (∀ s ∈ (generateMigration p).statements, ∃ c,
        p.changes[s.index]? = some c ∧
        (c.isDropArtifact = true → s.rollback_sql = Option.none) ∧
        s.is_destructive = changeIsDestructive c ∧
        changeIsDestructive c =
          (match c with
           | .dropTable _ | .dropColumn _ => true
           | _ => false)) ∧
      (generateMigration p).rollback_sql =
        String.intercalate "\n\n"
          ((generateMigration p).statements.filterMap (·.rollback_sql)).reverse := by
  intro p
  refine ⟨?_, rfl⟩
  intro s hs
  simp only [generateMigration, List.mem_map] at hs
  obtain ⟨ic, hmem, rfl⟩ := hs
  have hmem2 : ic ∈ p.changes.enum := (List.mem_filter.mp hmem).1
  have hget : p.changes[ic.1]? = some ic.2 := List.mem_enum_iff_getElem?.mp hmem2
  refine ⟨ic.2, ?_, ?_, rfl, ?_⟩
  · simpa [migrationStatementFor] using hget
  · intro hdrop
    cases h2 : ic.2 <;>
      simp_all [SchemaChange.isDropArtifact, migrationStatementFor, generateSqlForChange]
  · cases ic.2 <;> simp [changeIsDestructive]

/-- Claim C5 witness: the amended statement applied to a concrete
proposal containing one `DropTable` change. -/
theorem generate_migration_drop_statements_witness :
    (∃ c, dropTableProposal.changes[(migrationStatementFor 0
        (.dropTable { schema := "public", table_name := "users", cascade := false })).index]? =
        some c ∧
      (c.isDropArtifact = true →
        (migrationStatementFor 0
          (.dropTable { schema := "public", table_name := "users", cascade := false })).rollback_sql =
          Option.none) ∧
      (migrationStatementFor 0
          (.dropTable { schema := "public", table_name := "users", cascade := false })).is_destructive =
        changeIsDestructive c ∧
      changeIsDestructive c =
        (match c with
         | .dropTable _ | .dropColumn _ => true
         | _ => false)) :=
  (generate_migration_drop_statements dropTableProposal).1
    (migrationStatementFor 0
      (.dropTable { schema := "public", table_name := "users", cascade := false }))
    (by decide)

/-- Claim C7 counterexample: the type pair `char → varchar2` is outside
the claim's widening allow-list (even closed under chaining), yet the
diff marks the modification non-breaking because the source matches the
allow-list pairs by substring containment. -/
theorem type_change_allowlist_counterexample :
    ("char", "varchar2") ∉ claimWideningAllowList ∧
    ((compareColumns "public.users" colCharEmail colVarchar2Email).map
      (·.is_breaking)) = some false := by
  constructor
  · decide
  · decide

/-- Claim C7 amended: a pure type change produces a `Modified` item
whose `is_breaking` equals `is_type_change_breaking`, which is false
exactly when an allow-list pair occurs as substrings of the lowercased
types (so `integer → bigint` is non-breaking, but so is any pair merely
containing an allow-list pair, while chain-skipping pairs such as
`smallint → bigint` are breaking). -/
theorem type_change_breaking_characterization :
    (∀ (path : String) (c1 c2 : Column),
      c1.data_type ≠ c2.data_type → c1.nullable = c2.nullable →
      c1.is_primary_key = c2.is_primary_key →
      ∃ item, compareColumns path c1 c2 = some item ∧
        item.is_breaking = isTypeChangeBreaking c1.data_type c2.data_type) ∧
    isTypeChangeBreaking "integer" "bigint" = false ∧
    isTypeChangeBreaking "smallint" "bigint" = true ∧
    (∀ frm tgt, isTypeChangeBreaking frm tgt = false ↔
      ∃ pr ∈ safeWidenings,
        containsSub (lowerStr frm) pr.1 = true ∧ containsSub (lowerStr tgt) pr.2 = true) := by
  refine ⟨?_, by decide, by decide, ?_⟩
  · intro path c1 c2 hdt hnul hpk
    by_cases hdv : c1.default_value = c2.default_value <;>
      simp [compareColumns, hdt, hnul, hpk, hdv]
  · intro frm tgt
    simp [isTypeChangeBreaking, List.any_eq_true, and_assoc]

/-- Claim C7 witness: the amended statement applied to the concrete
widening `integer → bigint`. -/
theorem type_change_breaking_witness :
    (∃ item, compareColumns "public.users" colIntId colBigId = some item ∧
      item.is_breaking = isTypeChangeBreaking colIntId.data_type colBigId.data_type) ∧
    isTypeChangeBreaking "integer" "bigint" = false :=
  ⟨type_change_breaking_characterization.1 "public.users" colIntId colBigId
      (by decide) (by decide) (by decide),
   type_change_breaking_characterization.2.1⟩

set_option maxRecDepth 1000000 in
/-- Claim C1 counterexample: two snapshots with the same (empty) tables
and the same set of foreign keys, listed in different orders, have
different checksums — `compute_checksum` hashes foreign keys in
insertion order. -/
theorem checksum_fk_order_counterexample :
    claimStructEq snapFkAB snapFkBA ∧
    computeChecksum snapFkAB.tables snapFkAB.foreign_keys snapFkAB.indexes ≠
      computeChecksum snapFkBA.tables snapFkBA.foreign_keys snapFkBA.indexes := by
  refine ⟨⟨by decide, by decide⟩, ?_⟩
  decide

/-- Claim C1 amended: the checksum reads only the qualified table
names (sorted), the per-column (name, data type) pairs in table
sequence order — the `nullable` flag is not hashed — and the foreign
keys' (constraint name, referenced table) pairs in sequence order: two
snapshots whose table and foreign-key sequences agree on exactly those
projections get equal checksums, whatever their indexes and remaining
fields. -/
theorem compute_checksum_content_dependence :
    ∀ (t1 t2 : List Table) (f1 f2 : List ForeignKey) (i1 i2 : List Index),
      t1.map tableHashKey = t2.map tableHashKey →
      f1.map fkHashKey = f2.map fkHashKey →
      computeChecksum t1 f1 i1 = computeChecksum t2 f2 i2 := by
  intro t1 t2 f1 f2 i1 i2 ht hf
  have hq : t1.map (fun t => t.schema ++ "." ++ t.name) =
      t2.map (fun t => t.schema ++ "." ++ t.name) := by
    have h1 := congrArg (List.map Prod.fst) ht
    simpa [List.map_map, Function.comp_def, tableHashKey] using h1
  have hcols :
      t1.flatMap (fun t => t.columns.map (fun c =>
          t.schema ++ "." ++ t.name ++ "." ++ c.name ++ ":" ++ c.data_type)) =
      t2.flatMap (fun t => t.columns.map (fun c =>
          t.schema ++ "." ++ t.name ++ "." ++ c.name ++ ":" ++ c.data_type)) := by
    have key : ∀ (l : List Table),
        l.flatMap (fun t => t.columns.map (fun c =>
          t.schema ++ "." ++ t.name ++ "." ++ c.name ++ ":" ++ c.data_type)) =
        (l.map tableHashKey).flatMap (fun k =>
          k.2.map (fun nc => k.1 ++ "." ++ nc.1 ++ ":" ++ nc.2)) := by
      intro l
      induction l with
      | nil => rfl
      | cons hd tl ih =>
          simp only [List.flatMap_cons, List.map_cons, ih, tableHashKey, List.map_map,
            Function.comp_def]
    rw [key, key, ht]
  have hfks : f1.map (fun fk => "FK:" ++ fk.constraint_name ++ "->" ++
      fk.referenced_table) = f2.map (fun fk => "FK:" ++ fk.constraint_name ++ "->" ++
      fk.referenced_table) := by
    have key : ∀ (l : List ForeignKey),
        l.map (fun fk => "FK:" ++ fk.constraint_name ++ "->" ++ fk.referenced_table) =
        (l.map fkHashKey).map (fun k => "FK:" ++ k.1 ++ "->" ++ k.2) := by
      intro l
      simp [List.map_map, Function.comp_def, fkHashKey]
    rw [key, key, hf]
  simp only [computeChecksum]
  rw [hq, hcols, hfks]

/-- Claim C1 witness: the amended statement applied to two concrete
snapshots that differ in `nullable`, `default_value`, uniqueness and
indexes, yet hash identically. -/
theorem compute_checksum_content_dependence_witness :
    ([usersTable].map tableHashKey = [usersNullableTable].map tableHashKey) ∧
    computeChecksum [usersTable] [ordersUserFk] [] =
      computeChecksum [usersNullableTable] [ordersUserFk] [emailIdx] :=
  ⟨by decide,
   compute_checksum_content_dependence [usersTable] [usersNullableTable]
     [ordersUserFk] [ordersUserFk] [] [emailIdx] (by decide) rfl⟩

set_option maxRecDepth 1000000 in
/-- Claim C2 counterexample: at pre-flight drift the orchestrator
returns `AppError::Validation`, which maps to HTTP 400 and wire code
`VALIDATION_ERROR` — not 409 `CONFLICT` as the claim states (the
no-transaction half of the claim does hold). -/
theorem drift_error_counterexample :
    computeCurrentChecksum emptyLive ≠ staleProposal.base_checksum ∧
    traceError (orchestratorExecute staleProposal emptyLive 7 false noFailures noFailures) =
      some (.validation (driftMessage staleProposal.base_checksum
        (computeCurrentChecksum emptyLive))) ∧
    (orchestratorExecute staleProposal emptyLive 7 false noFailures noFailures).tx_opened =
      false ∧
    (AppError.validation (driftMessage staleProposal.base_checksum
      (computeCurrentChecksum emptyLive))).statusCode = 400 ∧
    (AppError.validation (driftMessage staleProposal.base_checksum
      (computeCurrentChecksum emptyLive))).wireCode = "VALIDATION_ERROR" ∧
    (400 : Nat) ≠ 409 ∧ "VALIDATION_ERROR" ≠ "CONFLICT" := by
  refine ⟨by decide, ?_, ?_, rfl, rfl, by decide, by decide⟩
  · decide
  · decide

/-- Claim C2 amended: when the pre-validated proposal's base checksum
differs from the live checksum, `execute` fails with
`AppError::Validation` (HTTP 400, wire code `VALIDATION_ERROR`) and no
transaction is opened. -/
theorem drift_fails_before_transaction :
    ∀ (p : SchemaProposal) (live : LiveSchema) (eid : Nat) (dryRun : Bool)
      (sf vf : Nat → Option String) (m : MigrationArtifacts),
      validateExecutionReady p = .ok () →
      p.migration = some m →
      computeCurrentChecksum live ≠ p.base_checksum →
      orchestratorExecute p live eid dryRun sf vf =
        { result := .error (.validation (driftMessage p.base_checksum
            (computeCurrentChecksum live)))
          tx_opened := false } ∧
      (AppError.validation (driftMessage p.base_checksum
        (computeCurrentChecksum live))).statusCode = 400 ∧
      (AppError.validation (driftMessage p.base_checksum
        (computeCurrentChecksum live))).wireCode = "VALIDATION_ERROR" := by
  intro p live eid dryRun sf vf m hval hmig hdrift
  refine ⟨?_, rfl, rfl⟩
  simp only [orchestratorExecute, hval, hmig]
  rw [if_pos hdrift]

set_option maxRecDepth 1000000 in
/-- Claim C2 witness: the amended statement applied to a concrete
stale proposal over an empty live schema. -/
theorem drift_fails_before_transaction_witness :
    orchestratorExecute staleProposal emptyLive 7 false noFailures noFailures =
      { result := .error (.validation (driftMessage staleProposal.base_checksum
          (computeCurrentChecksum emptyLive)))
        tx_opened := false } :=
  (drift_fails_before_transaction staleProposal emptyLive 7 false noFailures noFailures
    (generateMigration (mkProposal .draft "stale" [addEmailChange] Option.none))
    rfl rfl (by decide)).1

lemma bfsVisit_invariant (fks : List ForeignKey) :
    ∀ (queue : List (String × Nat)) (visited : Finset String),
      (∀ pd ∈ bfsVisit fks queue visited, pd.1 ∉ visited ∧
        (pd.1 ∈ queue.map Prod.fst ∨ pd.1 ∈ fks.map qualSource)) ∧
      ((bfsVisit fks queue visited).map Prod.fst).Nodup := by
  intro queue visited
  induction queue, visited using bfsVisit.induct fks with
  | case1 visited =>
      simp [bfsVisit]
  | case2 visited path dist rest hv ih =>
      rw [bfsVisit, dif_pos hv]
      refine ⟨fun pd hpd => ⟨(ih.1 pd hpd).1, ?_⟩, ih.2⟩
      rcases (ih.1 pd hpd).2 with h | h
      · exact Or.inl (by simp only [List.map_cons]; exact List.mem_cons_of_mem _ h)
      · exact Or.inr h
  | case3 visited path dist rest hv visited2 newItems ih =>
      rw [bfsVisit, dif_neg hv]
      have tailFacts := ih.1
      constructor
      · intro pd hpd
        rcases List.mem_cons.mp hpd with h | h
        · subst h
          exact ⟨hv, Or.inl (by simp)⟩
        · obtain ⟨hfresh, hsrc⟩ := tailFacts pd h
          refine ⟨fun hmem => hfresh (Finset.mem_insert_of_mem hmem), ?_⟩
          rcases hsrc with hq | hs
          · rw [List.map_append, List.mem_append] at hq
            rcases hq with hq | hq
            · exact Or.inl (by simp only [List.map_cons]; exact List.mem_cons_of_mem _ hq)
            · refine Or.inr ?_
              simp only [newItems, List.map_map, List.mem_map, Function.comp_def] at hq
              obtain ⟨d, hd, hde⟩ := hq
              have hdep : d ∈ depsOf fks path := List.mem_of_mem_filter hd
              simp only [depsOf, List.mem_map] at hdep
              obtain ⟨fk, hfk, hfke⟩ := hdep
              have hsrc2 : d ∈ fks.map qualSource :=
                hfke ▸ List.mem_map_of_mem qualSource (List.mem_of_mem_filter hfk)
              exact hde ▸ hsrc2
          · exact Or.inr hs
      · rw [List.map_cons]
        refine List.nodup_cons.mpr ⟨?_, ih.2⟩
        intro hmem
        rw [List.mem_map] at hmem
        obtain ⟨pd, hpd, hpde⟩ := hmem
        exact (tailFacts pd hpd).1 (hpde ▸ Finset.mem_insert_self path visited)

/-- Claim C8: `analyze_table` is total (the Lean model is a terminating
function for every snapshot, cyclic dependency graphs included), every
table appears at most once in the impact list (the visited set stops
revisits), each impacted path is a foreign-key source table, and the
impact list is bounded by the number of distinct source tables. -/
theorem analyze_table_visits_once :
    ∀ (snapshot : SchemaSnapshot) (schema tableName : String),
      ((analyzeTable snapshot schema tableName).impacted.map (·.path)).Nodup ∧
      (∀ i ∈ (analyzeTable snapshot schema tableName).impacted,
        i.path ∈ snapshot.foreign_keys.map qualSource) ∧
      (analyzeTable snapshot schema tableName).impacted.length ≤
        (snapshot.foreign_keys.map qualSource).dedup.length := by
  intro snapshot schema tableName
  have hinv := bfsVisit_invariant snapshot.foreign_keys
    ((depsOf snapshot.foreign_keys (schema ++ "." ++ tableName)).map (fun d => (d, 1))) ∅
  set processed := bfsVisit snapshot.foreign_keys
    ((depsOf snapshot.foreign_keys (schema ++ "." ++ tableName)).map (fun d => (d, 1))) ∅
    with hproc
  have hpaths : (analyzeTable snapshot schema tableName).impacted.map (·.path) =
      processed.map Prod.fst := by
    simp [analyzeTable, blastFromProcessed, List.map_map, Function.comp_def, hproc]
  have hsrcAll : ∀ pd ∈ processed, pd.1 ∈ snapshot.foreign_keys.map qualSource := by
    intro pd hpd
    rcases (hinv.1 pd hpd).2 with h | h
    · simp only [List.map_map, Function.comp_def, List.mem_map] at h
      obtain ⟨d, hd, hde⟩ := h
      subst hde
      simp only [depsOf, List.mem_map] at hd
      obtain ⟨fk, hfk, hfke⟩ := hd
      exact hfke ▸ List.mem_map_of_mem qualSource (List.mem_of_mem_filter hfk)
    · exact h
  have hnodup : ((analyzeTable snapshot schema tableName).impacted.map (·.path)).Nodup := by
    rw [hpaths]; exact hinv.2
  refine ⟨hnodup, ?_, ?_⟩
  · intro i hi
    simp only [analyzeTable, blastFromProcessed, List.mem_map] at hi
    obtain ⟨pd, hpd, hpde⟩ := hi
    have := hsrcAll pd hpd
    subst hpde
    exact this
  · have hlen : (analyzeTable snapshot schema tableName).impacted.length =
        ((analyzeTable snapshot schema tableName).impacted.map (·.path)).length := by
      rw [List.length_map]
    rw [hlen]
    have hsub : ∀ x ∈ (analyzeTable snapshot schema tableName).impacted.map (·.path),
        x ∈ snapshot.foreign_keys.map qualSource := by
      intro x hx
      rw [hpaths] at hx
      rw [List.mem_map] at hx
      obtain ⟨pd, hpd, hpde⟩ := hx
      exact hpde ▸ hsrcAll pd hpd
    calc ((analyzeTable snapshot schema tableName).impacted.map (·.path)).length
        = ((analyzeTable snapshot schema tableName).impacted.map (·.path)).toFinset.card :=
          (List.toFinset_card_of_nodup hnodup).symm
      _ ≤ (snapshot.foreign_keys.map qualSource).toFinset.card := by
          apply Finset.card_le_card
          intro x hx
          rw [List.mem_toFinset] at hx
          rw [List.mem_toFinset]
          exact hsub x hx
      _ = (snapshot.foreign_keys.map qualSource).dedup.length := List.card_toFinset _

/-- Claim C8 witness: the statement applied to the concrete snapshot
with one foreign key. -/
theorem analyze_table_visits_once_witness :
    ((analyzeTable baseSnap "public" "users").impacted.map (·.path)).Nodup ∧
    (analyzeTable baseSnap "public" "users").impacted.length ≤
      (baseSnap.foreign_keys.map qualSource).dedup.length :=
  ⟨(analyze_table_visits_once baseSnap "public" "users").1,
   (analyze_table_visits_once baseSnap "public" "users").2.2⟩

lemma storeInv_empty (cid : Nat) : storeInv emptyStore cid := by
  constructor
  · intro _; rfl
  · intro n hn; simp [emptyStore] at hn

lemma storeInv_keys_le {st : SnapshotStoreState} {cid : Nat} (h : storeInv st cid) :
    ∀ pr ∈ st.snapshots cid, pr.1 ≤ versionNat st cid := by
  intro pr hpr
  cases hv : st.versions cid with
  | none => rw [h.1 hv] at hpr; cases hpr
  | some n =>
      obtain ⟨_, snap, rest, hlist, _, hrest⟩ := h.2 n hv
      rw [hlist] at hpr
      rcases List.mem_cons.mp hpr with h1 | h1
      · simp [versionNat, hv, h1]
      · have := hrest pr h1
        simp only [versionNat, hv, Option.getD_some]
        omega

lemma storeInv_save {st : SnapshotStoreState} {cid : Nat} (h : storeInv st cid)
    (snap : SchemaSnapshot) : storeInv (storeSave st snap).1 cid := by
  have hkeys := storeInv_keys_le h
  by_cases hc : cid = snap.connection_id
  · subst hc
    constructor
    · intro hv
      simp only [storeSave, eq_self_iff_true, if_true] at hv
      cases hv
    · intro n hv
      simp only [storeSave, eq_self_iff_true, if_true] at hv ⊢
      have hn : (st.versions snap.connection_id).getD 0 + 1 = n := Option.some.inj hv
      subst hn
      refine ⟨by omega,
        { snap with version := (st.versions snap.connection_id).getD 0 + 1 },
        (st.snapshots snap.connection_id).filter
          (fun pr => pr.1 ≠ (st.versions snap.connection_id).getD 0 + 1),
        rfl, rfl, ?_⟩
      intro pr hpr
      have hmem : pr ∈ st.snapshots snap.connection_id := List.mem_of_mem_filter hpr
      have hle := hkeys pr hmem
      unfold versionNat at hle
      omega
  · have hns : (storeSave st snap).1.snapshots cid = st.snapshots cid := by
      simp only [storeSave, if_neg hc]
    have hnv : (storeSave st snap).1.versions cid = st.versions cid := by
      simp only [storeSave, if_neg hc]
    exact ⟨fun hv => by rw [hns]; exact h.1 (hnv ▸ hv),
      fun n hv => by rw [hns]; exact h.2 n (hnv ▸ hv)⟩

lemma natGe_trans : ∀ a b c : Nat, natGe a b = true → natGe b c = true → natGe a c = true := by
  intro a b c hab hbc
  simp only [natGe, decide_eq_true_eq] at *
  omega

lemma natGe_total : ∀ a b : Nat, (natGe a b || natGe b a) = true := by
  intro a b
  simp only [natGe, Bool.or_eq_true, decide_eq_true_eq]
  omega

/-- The newest version of a connection survives any prune with
`keep ≥ 1`: it is the unique maximum of the key list, hence the head of
the descending sort, hence inside the kept prefix. -/
lemma max_not_in_drop {n : Nat} {restKeys : List Nat} {keep : Nat}
    (hkeep : 1 ≤ keep) (hrest : ∀ k ∈ restKeys, k < n) :
    n ∉ ((n :: restKeys).mergeSort natGe).drop keep := by
  set sorted := (n :: restKeys).mergeSort natGe with hsorted
  have hperm : sorted.Perm (n :: restKeys) := List.mergeSort_perm _ _
  have hpair : sorted.Pairwise (fun a b => natGe a b = true) :=
    List.sorted_mergeSort natGe_trans natGe_total _
  have hcount : sorted.count n = 1 := by
    rw [hperm.count_eq]
    have : restKeys.count n = 0 :=
      List.count_eq_zero.mpr (fun hmem => lt_irrefl n (hrest n hmem))
    simp [List.count_cons, this]
  cases hs : sorted with
  | nil =>
      exfalso
      have := hperm.length_eq
      rw [hs] at this
      simp at this
  | cons hd tl =>
      have hhd : hd = n := by
        have hdm : hd ∈ (n :: restKeys) := hperm.mem_iff.mp (hs ▸ List.mem_cons_self hd tl)
        have hnm : n ∈ sorted := hperm.mem_iff.mpr (List.mem_cons_self n restKeys)
        rw [hs] at hnm
        rcases List.mem_cons.mp hnm with h1 | h1
        · exact h1.symm
        · have hge : natGe hd n = true := by
            rw [hs] at hpair
            exact (List.pairwise_cons.mp hpair).1 n h1
          simp only [natGe, decide_eq_true_eq] at hge
          rcases List.mem_cons.mp hdm with h2 | h2
          · exact h2
          · exact absurd (hrest hd h2) (by omega)
      have htl : tl.count n = 0 := by
        rw [hs, List.count_cons, hhd] at hcount
        simpa using hcount
      intro hmem
      have hsub : (hd :: tl).drop keep ⊆ tl := by
        intro x hx
        cases keep with
        | zero => omega
        | succ k =>
            rw [List.drop_succ_cons] at hx
            exact List.drop_subset _ _ hx
      exact List.count_eq_zero.mp htl (hsub hmem)

lemma storeInv_prune {st : SnapshotStoreState} {cid : Nat} (h : storeInv st cid)
    (cid2 keep : Nat) (hkeep : 1 ≤ keep) :
    storeInv (storePrune st cid2 keep).1 cid ∧
    (storePrune st cid2 keep).1.versions = st.versions := by
  unfold storePrune
  by_cases hlen : (st.snapshots cid2).length ≤ keep
  · simp only [if_pos hlen]
    exact ⟨h, by trivial⟩
  · simp only [if_neg hlen]
    refine ⟨⟨?_, ?_⟩, by trivial⟩
    · intro hv
      by_cases hc : cid = cid2
      · subst hc
        simp only [if_pos rfl]
        rw [h.1 hv]
        rfl
      · simp only [if_neg hc]
        exact h.1 hv
    · intro n hv
      by_cases hc : cid = cid2
      · subst hc
        obtain ⟨hn1, snap, rest, hlist, hver, hrest⟩ := h.2 n hv
        have hkeysEq : (st.snapshots cid).map Prod.fst = n :: rest.map Prod.fst := by
          rw [hlist]; rfl
        have hnot :
            n ∉ (((st.snapshots cid).map Prod.fst).mergeSort natGe).drop keep := by
          rw [hkeysEq]
          refine max_not_in_drop hkeep ?_
          intro k hk
          rw [List.mem_map] at hk
          obtain ⟨pr, hpr, hpre⟩ := hk
          exact hpre ▸ hrest pr hpr
        have hcontains :
            ((((st.snapshots cid).map Prod.fst).mergeSort natGe).drop keep).contains n =
              false := by
          simpa using hnot
        refine ⟨hn1, snap,
          rest.filter (fun pr =>
            !((((st.snapshots cid).map Prod.fst).mergeSort natGe).drop
              keep).contains pr.1), ?_, hver, ?_⟩
        · simp only [if_pos rfl]
          rw [hlist] at hcontains
          rw [hlist, List.filter_cons]
          have hnot2 : n ∉ List.drop keep ((n :: rest.map Prod.fst).mergeSort natGe) := by
            refine max_not_in_drop hkeep ?_
            intro k hk
            rw [List.mem_map] at hk
            obtain ⟨pr, hpr, hpre⟩ := hk
            exact hpre ▸ hrest pr hpr
          simp [hcontains, hnot2]
        · intro pr hpr
          exact hrest pr (List.mem_of_mem_filter hpr)
      · simp only [if_neg hc]
        exact h.2 n hv

lemma savesFor_cons (cid : Nat) (op : StoreOp) (rest : List StoreOp) :
    savesFor cid (op :: rest) =
      (if op.isSaveFor cid then 1 else 0) + savesFor cid rest := by
  simp only [savesFor, List.filter_cons]
  by_cases hop : op.isSaveFor cid <;> simp [hop, Nat.add_comm]

lemma storeRun_inv :
    ∀ (ops : List StoreOp) (st : SnapshotStoreState) (cid : Nat),
      (∀ op ∈ ops, op.keepsLatest = true) → storeInv st cid →
      storeInv (ops.foldl storeStep st) cid ∧
      versionNat (ops.foldl storeStep st) cid = versionNat st cid + savesFor cid ops := by
  intro ops
  induction ops with
  | nil =>
      intro st cid _ h
      exact ⟨h, by simp [savesFor]⟩
  | cons op rest ih =>
      intro st cid hall h
      have hop := hall op (List.mem_cons_self op rest)
      have hrest : ∀ o ∈ rest, o.keepsLatest = true :=
        fun o ho => hall o (List.mem_cons_of_mem _ ho)
      rw [List.foldl_cons, savesFor_cons]
      cases op with
      | save snap =>
          have h2 := storeInv_save h snap
          obtain ⟨hi, hv⟩ := ih (storeStep st (.save snap)) cid hrest h2
          refine ⟨hi, ?_⟩
          rw [hv]
          have hstep : versionNat (storeStep st (.save snap)) cid =
              versionNat st cid + (if (StoreOp.save snap).isSaveFor cid then 1 else 0) := by
            by_cases hc : snap.connection_id = cid
            · subst hc
              simp [storeStep, storeSave, versionNat, StoreOp.isSaveFor]
            · have hc2 : ¬(cid = snap.connection_id) := fun he => hc he.symm
              simp [storeStep, storeSave, versionNat, StoreOp.isSaveFor, hc, hc2]
          rw [hstep]
          omega
      | prune c2 keep =>
          have hkeep : 1 ≤ keep := by
            simpa [StoreOp.keepsLatest] using hop
          obtain ⟨h2, hmaps⟩ := storeInv_prune h c2 keep hkeep
          obtain ⟨hi, hv⟩ := ih (storeStep st (.prune c2 keep)) cid hrest h2
          refine ⟨hi, ?_⟩
          rw [hv]
          have hstep : versionNat (storeStep st (.prune c2 keep)) cid =
              versionNat st cid := by
            simp [storeStep, versionNat, hmaps]
          rw [hstep]
          simp [StoreOp.isSaveFor]

/-- Claim C6: starting from the empty store, after any interleaving of
saves and prunes that keep at least one version, the per-connection
version counter equals the number of saves for that connection, the
next save is assigned that count plus one, and when at least one save
occurred the latest stored snapshot carries exactly that version —
prune never disturbs the counter or the newest snapshot. -/
theorem snapshot_store_version_invariant :
    ∀ (ops : List StoreOp), (∀ op ∈ ops, op.keepsLatest = true) → ∀ (cid : Nat),
      versionNat (storeRun ops) cid = savesFor cid ops ∧
      (∀ snap : SchemaSnapshot, snap.connection_id = cid →
        (storeSave (storeRun ops) snap).2.version = savesFor cid ops + 1) ∧
      (1 ≤ savesFor cid ops →
        ∃ sn, storeGetLatest (storeRun ops) cid = some sn ∧
          sn.version = savesFor cid ops) := by
  intro ops hall cid
  obtain ⟨hinv, hver⟩ := storeRun_inv ops emptyStore cid hall (storeInv_empty cid)
  have hvn : versionNat (storeRun ops) cid = savesFor cid ops := by
    rw [storeRun, hver]
    simp [versionNat, emptyStore]
  refine ⟨hvn, ?_, ?_⟩
  · intro snap hc
    have : (storeSave (storeRun ops) snap).2.version =
        ((storeRun ops).versions snap.connection_id).getD 0 + 1 := rfl
    rw [this, hc]
    have : ((storeRun ops).versions cid).getD 0 = savesFor cid ops := hvn
    omega
  · intro hpos
    cases hv : (storeRun ops).versions cid with
    | none =>
        exfalso
        rw [versionNat, hv] at hvn
        simp at hvn
        omega
    | some n =>
        have hn : n = savesFor cid ops := by
          rw [versionNat, hv] at hvn
          simpa using hvn
        obtain ⟨_, snap, rest, hlist, hver2, _⟩ := hinv.2 n hv
        refine ⟨snap, ?_, by rw [hver2, hn]⟩
        have hlist2 : (storeRun ops).snapshots cid = (n, snap) :: rest := hlist
        simp only [storeGetLatest, hv, hlist2]
        rw [List.find?_cons_of_pos _ (by simp)]
        rfl

/-- Claim C6 witness: three saves for connection 1 with a prune in
between leave the latest version at 3. -/
theorem snapshot_store_version_invariant_witness :
    (∀ op ∈ sampleOps, op.keepsLatest = true) ∧ 1 ≤ savesFor 1 sampleOps ∧
    (∃ sn, storeGetLatest (storeRun sampleOps) 1 = some sn ∧
      sn.version = savesFor 1 sampleOps) :=
  ⟨by decide, by decide,
   (snapshot_store_version_invariant sampleOps (by decide) 1).2.2 (by decide)⟩

lemma bfsVisit_nil (fks : List ForeignKey) (visited : Finset String) :
    bfsVisit fks [] visited = [] := by
  rw [bfsVisit]

lemma bfsVisit_cons (fks : List ForeignKey) (path : String) (dist : Nat)
    (rest : List (String × Nat)) (visited : Finset String) :
    bfsVisit fks ((path, dist) :: rest) visited =
      if path ∈ visited then bfsVisit fks rest visited
      else (path, dist) :: bfsVisit fks
        (rest ++ ((depsOf fks path).filter
          (fun d => d ∉ insert path visited)).map (fun d => (d, dist + 1)))
        (insert path visited) := by
  rw [bfsVisit]
  by_cases h : path ∈ visited
  · rw [dif_pos h, if_pos h]
  · rw [dif_neg h, if_neg h]

lemma bfs_users :
    bfsVisit baseSnap.foreign_keys
      ((depsOf baseSnap.foreign_keys ("public" ++ "." ++ "users")).map (fun d => (d, 1)))
      ∅ = [("public.orders", 1)] := by
  rw [show (depsOf baseSnap.foreign_keys ("public" ++ "." ++ "users")).map
      (fun d => (d, (1 : Nat))) = [("public.orders", 1)] from by decide]
  rw [bfsVisit_cons, if_neg (by decide)]
  rw [show ([] : List (String × Nat)) ++
      ((depsOf baseSnap.foreign_keys "public.orders").filter
        (fun d => d ∉ insert "public.orders" (∅ : Finset String))).map
        (fun d => (d, 1 + 1)) = [] from by decide]
  rw [bfsVisit_nil]

lemma analyzeTable_baseSnap_users :
    analyzeTable baseSnap "public" "users" =
      blastFromProcessed baseSnap ("public" ++ "." ++ "users") [("public.orders", 1)] := by
  rw [analyzeTable, bfs_users]

lemma checkDropTableRule_fires :
    checkDropTableRule baseSnap removedUsersItem =
      [{ rule_id := "R002"
         rule_name := "Table Drop with Dependencies"
         severity := .block
         message := "Cannot drop table public.users - 1 other tables depend on it"
         affected_object := "public.users"
         suggestion :=
           some "Drop dependent tables first, or update their foreign keys" }] := by
  rw [checkDropTableRule, if_neg (by decide)]
  rw [show splitOnChar removedUsersItem.object_path '.' = ["public", "users"] from by decide]
  simp only [analyzeTable_baseSnap_users]
  decide

lemma violationsFor_removedUsers :
    violationsFor baseSnap removedUsersItem =
      checkDropTableRule baseSnap removedUsersItem := by
  rw [violationsFor]
  rw [show checkDropColumnRule baseSnap removedUsersItem = [] from by decide]
  rw [show checkIndexRemovalRule removedUsersItem = [] from by decide]
  rw [show checkTypeChangeRule removedUsersItem = [] from by decide]
  rw [show checkNotNullWithoutDefault removedUsersItem = [] from by decide]
  rw [show checkRenameWithoutAlias removedUsersItem = [] from by decide]
  rw [show checkPkModification removedUsersItem = [] from by decide]
  rw [show checkCascadeDelete removedUsersItem = [] from by decide]
  simp

lemma diff_changes_c3 :
    (diffSnapshots baseSnap droppedSnap).changes = [removedUsersItem, removedFkItem] :=
  rfl

lemma rules_violations_c3 :
    (RulesEngine.new.evaluate (diffSnapshots baseSnap droppedSnap) baseSnap).violations =
      [r002Violation] := by
  have hv1 : violationsFor baseSnap removedUsersItem = [r002Violation] := by
    rw [violationsFor_removedUsers, checkDropTableRule_fires]
    rfl
  have hv2 : violationsFor baseSnap removedFkItem = [] := by decide
  simp only [RulesEngine.evaluate, diff_changes_c3, List.flatMap_cons, List.flatMap_nil,
    hv1, hv2, List.append_nil]

set_option maxRecDepth 1000000 in
/-- Claim C3 failing input (code bug): the diff dropping the referenced
table `public.users` yields an `R002` Block violation and
`can_proceed = false`, yet executing the matching approved proposal
through `Orchestrator::execute` opens a transaction and reports
success — no rules check guards the execute path, contradicting the
source's own `Severity::Block` documentation ("blocks execution
entirely"). -/
theorem block_violation_does_not_gate_execution :
    (RulesEngine.new.evaluate (diffSnapshots baseSnap droppedSnap)
      baseSnap).summary.can_proceed = false ∧
    (∃ v ∈ (RulesEngine.new.evaluate (diffSnapshots baseSnap droppedSnap)
      baseSnap).violations, v.severity = .block ∧ v.rule_id = "R002") ∧
    (orchestratorExecute dropUsersProposal liveBase 9 false noFailures
      noFailures).tx_opened = true ∧
    (traceOk (orchestratorExecute dropUsersProposal liveBase 9 false noFailures
      noFailures)).map (·.success) = some true ∧
    traceError (orchestratorExecute dropUsersProposal liveBase 9 false noFailures
      noFailures) = Option.none := by
  refine ⟨?_, ?_, ?_, ?_, ?_⟩
  · simp only [RulesEngine.evaluate, diff_changes_c3, List.flatMap_cons, List.flatMap_nil,
      violationsFor_removedUsers, checkDropTableRule_fires,
      show violationsFor baseSnap removedFkItem = [] from by decide, List.append_nil]
    decide
  · refine ⟨r002Violation, ?_, by decide, by decide⟩
    rw [rules_violations_c3]
    exact List.mem_singleton.mpr rfl
  · decide
  · decide
  · decide

end SchemaFlow
